import Mathlib

/-! # uCTest: assertion evaluator and test runner

A shallow embedding of `include/uCTest.h` (the macros `UC_PRINTF_FUNCTION`,
`_UC_FAIL_FAST`, `UC_ASSERT_MSG`, `EXECUTE_TEST_CASE`, `NO_ERROR_DETECTED`) and of
`src/uCTestDemo.c` (`TestCase1`, `TestCase2`, `RunTests`, the two globals).

The two globals become fields of an explicit state that every operation threads
through.  A macro that may execute a C `return` in the function it is expanded in
yields an `Option Bool`: `some b` when the enclosing function returns `b` at this
point, `none` when control falls through to the next statement.
-/

namespace UCTest

/-! ## Data model -/

/-- Build-time switches of the header: `USE_PRINTF` selects what
`UC_PRINTF_FUNCTION` expands to, `UC_FAIL_FAST` selects `_UC_FAIL_FAST`. -/
structure Config where
  USE_PRINTF : Bool
  UC_FAIL_FAST : Bool
  deriving DecidableEq, Repr

/-- Observation log entry.  The log is bookkeeping of the embedding, not program
state: no definition below ever reads it.  It records, in execution order, that a
`UC_ASSERT_MSG` was evaluated (with its message and condition), that
`EXECUTE_TEST_CASE` called a test function, and what the call returned. -/
inductive Event where
  | assertion (message : String) (condition : Bool)
  | invoke (name : String)
  | returned (name : String) (result : Bool)
  deriving DecidableEq, Repr

/-- Program state: the two globals of `uCTestDemo.c` (lines 30-31), the text handed
to `printf` so far (one entry per call, oldest first) and the observation log.  An
entry of `out` is the argument of the call; for the one call that has a conversion
to fill in (the last of the driver) it is the text with the number written out. -/
structure State where
  g_testFunctionCount : Nat
  g_errorDetected : Bool
  out : List String
  log : List Event
  /-- Observation only, like `log`: the value `g_testFunctionCount` has at the moment
  `EXECUTE_TEST_CASE` calls a test function, one entry per call, oldest first. -/
  counterAtCall : List Nat := []
  deriving DecidableEq, Repr

/-- One `UC_ASSERT_MSG(MESSAGE, TEST_RESULT);` statement, its condition already
computed. -/
structure Assertion where
  message : String
  condition : Bool
  deriving DecidableEq, Repr

/-- A test function in the shape of `TestCase1`/`TestCase2`: a name (what
`#UNIT_TEST_FUNCTION` stringifies), a sequence of `UC_ASSERT_MSG` statements and a
final `return ret;`. -/
structure TestFunction where
  name : String
  asserts : List Assertion
  ret : Bool
  deriving DecidableEq, Repr

/-- Width of `uint32_t g_testFunctionCount`: arithmetic on it is modulo this. -/
def UINT32_MODULUS : Nat := 4294967296

/-- Values of the globals at program start (`uCTestDemo.c` lines 30-31), nothing
printed yet. -/
def initialState : State :=
  { g_testFunctionCount := 0, g_errorDetected := false, out := [], log := [] }

/-! ## The macros of `uCTest.h` -/

/-- `UC_PRINTF_FUNCTION(text)`: `(void)printf(text)` when `USE_PRINTF` is set,
nothing otherwise (header lines 26-30). -/
def UC_PRINTF_FUNCTION (cfg : Config) (text : String) (s : State) : State :=
  if cfg.USE_PRINTF then { s with out := s.out ++ [text] } else s

/-- `_UC_FAIL_FAST` (header lines 35-39). -/
def _UC_FAIL_FAST (cfg : Config) : Bool :=
  if cfg.UC_FAIL_FAST then true else false

/-- `UC_ASSERT_MSG(MESSAGE, TEST_RESULT)` (header lines 55-71).  The result is
`some b` when the macro executes `return b` in the enclosing test function. -/
def UC_ASSERT_MSG (cfg : Config) (MESSAGE : String) (TEST_RESULT : Bool) (s : State) :
    Option Bool × State :=
  let s0 := { s with log := s.log ++ [Event.assertion MESSAGE TEST_RESULT] }
  let s1 := UC_PRINTF_FUNCTION cfg MESSAGE s0
  if TEST_RESULT then
    (none, UC_PRINTF_FUNCTION cfg " [OK]\r\n" s1)
  else
    let s2 := UC_PRINTF_FUNCTION cfg " [NOK]\r\n" s1
    let s3 := { s2 with g_errorDetected := true }
    if _UC_FAIL_FAST cfg then
      (some (!s3.g_errorDetected), s3)
    else
      (none, s3)

/-- Body of a test function: its `UC_ASSERT_MSG` statements in order, each of which
may return from the function, then `return ret;`. -/
def runBody (cfg : Config) : List Assertion → Bool → State → Bool × State
  | [], ret, s => (ret, s)
  | a :: rest, ret, s =>
    match UC_ASSERT_MSG cfg a.message a.condition s with
    | (some r, s1) => (r, s1)
    | (none, s1) => runBody cfg rest ret s1

/-- Calling a test function: `(UNIT_TEST_FUNCTION)()`. -/
def TestFunction.call (cfg : Config) (f : TestFunction) (s : State) : Bool × State :=
  runBody cfg f.asserts f.ret s

/-- `EXECUTE_TEST_CASE(UNIT_TEST_FUNCTION)` (header lines 81-92).  The result is
`some false` when the macro executes `return false` in the enclosing runner. -/
def EXECUTE_TEST_CASE (cfg : Config) (f : TestFunction) (s : State) : Option Bool × State :=
  let s1 := { s with
    g_testFunctionCount := (s.g_testFunctionCount + 1) % UINT32_MODULUS,
    log := s.log ++ [Event.invoke f.name] }
  let s1 := { s1 with counterAtCall := s1.counterAtCall ++ [s1.g_testFunctionCount] }
  let r := f.call cfg s1
  let s2 := { r.2 with log := r.2.log ++ [Event.returned f.name r.1] }
  if !r.1 then
    let s3 := UC_PRINTF_FUNCTION cfg f.name s2
    let s4 := UC_PRINTF_FUNCTION cfg "\t[NOK]\r\n" s3
    (some false, s4)
  else
    let s3 := UC_PRINTF_FUNCTION cfg f.name s2
    (none, UC_PRINTF_FUNCTION cfg "\t[OK]\r\n" s3)

/-- `NO_ERROR_DETECTED` (header line 98). -/
def NO_ERROR_DETECTED (s : State) : Bool :=
  !s.g_errorDetected

/-! ## The runner of `uCTestDemo.c` -/

/-- `RunTests` (`uCTestDemo.c` lines 35-41) for an arbitrary registration list: one
`EXECUTE_TEST_CASE` statement per registered function, then `return true;`. -/
def RunTests (cfg : Config) : List TestFunction → State → Bool × State
  | [], s => (true, s)
  | f :: rest, s =>
    match EXECUTE_TEST_CASE cfg f s with
    | (some r, s1) => (r, s1)
    | (none, s1) => RunTests cfg rest s1

/-- `TestCase1` (`uCTestDemo.c` lines 17-21). -/
def TestCase1 : TestFunction :=
  { name := "TestCase1",
    asserts := [{ message := "TestCase2: Detailed information ...", condition := true }],
    ret := true }

/-- `TestCase2` (`uCTestDemo.c` lines 23-27). -/
def TestCase2 : TestFunction :=
  { name := "TestCase2",
    asserts := [{ message := "TestCase2: Detailed information ...", condition := false }],
    ret := true }

/-! ## The driver of `uCTestDemo.c` -/

/-- The driver calls `printf` itself (`uCTestDemo.c` lines 48, 52, 55), whatever
`USE_PRINTF` is. -/
def printf (text : String) (s : State) : State :=
  { s with out := s.out ++ [text] }

/-- `main` (`uCTestDemo.c` lines 43-58) over an arbitrary registration list: the
result is the exit code and the final state.  `&&` evaluates `RunTests()` first and
reads `NO_ERROR_DETECTED` in the state the run left; `PRIu32` writes the counter in
decimal. -/
def main (cfg : Config) (tests : List TestFunction) (s : State) : Int × State :=
  let r := RunTests cfg tests s
  let s1 :=
    if r.1 && NO_ERROR_DETECTED r.2 then
      printf "All test cases successfully passed.\n" r.2
    else
      printf "Error detected.\n" r.2
  let s2 := printf ("Executed " ++ toString s1.g_testFunctionCount ++ " test functions.\n") s1
  (0, s2)

/-! ## Reading the observation log -/

/-- Names of the test functions called, in call order. -/
def invokedNames : List Event → List String
  | [] => []
  | Event.invoke n :: es => n :: invokedNames es
  | _ :: es => invokedNames es

/-- The assertions evaluated, in evaluation order. -/
def evaluatedAssertions : List Event → List Assertion
  | [] => []
  | Event.assertion m c :: es => { message := m, condition := c } :: evaluatedAssertions es
  | _ :: es => evaluatedAssertions es

/-- The values the called test functions returned, in order. -/
def returnedResults : List Event → List Bool
  | [] => []
  | Event.returned _ r :: es => r :: returnedResults es
  | _ :: es => returnedResults es

/-- The value a test function returns.  It is computed by running the function from
the initial state; by `call_fst` below the value is the same from every state. -/
def TestFunction.returns (cfg : Config) (f : TestFunction) : Bool :=
  (f.call cfg initialState).1

/-- The events a test function body appends to the log: one per assertion evaluated.
Under fail-fast nothing follows the first assertion whose condition is false. -/
def bodyLog (cfg : Config) : List Assertion → List Event
  | [] => []
  | a :: rest =>
    Event.assertion a.message a.condition ::
      (if !a.condition && cfg.UC_FAIL_FAST then [] else bodyLog cfg rest)

/-- The events one `EXECUTE_TEST_CASE` step appends to the log. -/
def stepLog (cfg : Config) (f : TestFunction) : List Event :=
  Event.invoke f.name :: (bodyLog cfg f.asserts ++ [Event.returned f.name (f.returns cfg)])

/-- The registered functions the runner gets to call: those up to and including the
first one that returns false. -/
def invokedFunctions (cfg : Config) : List TestFunction → List TestFunction
  | [] => []
  | f :: rest => f :: (if f.returns cfg then invokedFunctions cfg rest else [])

/-- The events a whole run appends to the log. -/
def runLog (cfg : Config) : List TestFunction → List Event
  | [] => []
  | f :: rest => stepLog cfg f ++ (if f.returns cfg then runLog cfg rest else [])

/-- An evaluated assertion whose condition was false. -/
def Event.isFailure : Event → Bool
  | Event.assertion _ c => !c
  | _ => false

/-- A test function without assertions that ends in `return false;`. -/
def failingTest : TestFunction :=
  { name := "TestCase3", asserts := [], ret := false }

/-- A log in which the first failed assertion, if there is one, is followed by exactly
one more event, the return of false from a test function. -/
def stopsAfterFailure : List Event → Bool
  | [] => true
  | Event.assertion _ false :: es =>
    match es with
    | [Event.returned _ false] => true
    | _ => false
  | _ :: es => stopsAfterFailure es

/-- What the active message sink receives for an event of the log: an evaluated
assertion gives its message and its tag, a returned call gives the name of the
function and the tag of the runner, the call itself gives nothing. -/
def Event.emitted : Event → List String
  | Event.assertion m c => [m, if c then " [OK]\r\n" else " [NOK]\r\n"]
  | Event.invoke _ => []
  | Event.returned n r => [n, if r then "\t[OK]\r\n" else "\t[NOK]\r\n"]

/-- What the active message sink receives for a whole log, event after event. -/
def emittedOf : List Event → List String
  | [] => []
  | e :: es => e.emitted ++ emittedOf es

/-- The same test function with every assertion condition replaced by true: what is
left of a test function when the conditions of its assertions are disregarded. -/
def TestFunction.eraseConditions (f : TestFunction) : TestFunction :=
  { f with asserts := f.asserts.map (fun a => { a with condition := true }) }

/-- One `++g_testFunctionCount` on the 32-bit counter. -/
def incrementCounter (n : Nat) : Nat :=
  (n + 1) % UINT32_MODULUS

/-! ## Basic facts about the macros -/

@[simp]
theorem printf_count (cfg : Config) (t : String) (s : State) :
    (UC_PRINTF_FUNCTION cfg t s).g_testFunctionCount = s.g_testFunctionCount := by
  unfold UC_PRINTF_FUNCTION; split <;> rfl

@[simp]
theorem printf_flag (cfg : Config) (t : String) (s : State) :
    (UC_PRINTF_FUNCTION cfg t s).g_errorDetected = s.g_errorDetected := by
  unfold UC_PRINTF_FUNCTION; split <;> rfl

@[simp]
theorem printf_log (cfg : Config) (t : String) (s : State) :
    (UC_PRINTF_FUNCTION cfg t s).log = s.log := by
  unfold UC_PRINTF_FUNCTION; split <;> rfl

theorem printf_out (cfg : Config) (t : String) (s : State) :
    (UC_PRINTF_FUNCTION cfg t s).out = s.out ++ (if cfg.USE_PRINTF then [t] else []) := by
  unfold UC_PRINTF_FUNCTION; split <;> simp

theorem assert_ctrl (cfg : Config) (m : String) (c : Bool) (s : State) :
    (UC_ASSERT_MSG cfg m c s).1 = if !c && cfg.UC_FAIL_FAST then some false else none := by
  unfold UC_ASSERT_MSG _UC_FAIL_FAST
  cases c <;> cases h : cfg.UC_FAIL_FAST <;> simp

@[simp]
theorem assert_count (cfg : Config) (m : String) (c : Bool) (s : State) :
    (UC_ASSERT_MSG cfg m c s).2.g_testFunctionCount = s.g_testFunctionCount := by
  unfold UC_ASSERT_MSG _UC_FAIL_FAST
  cases c <;> cases h : cfg.UC_FAIL_FAST <;> simp

@[simp]
theorem assert_flag (cfg : Config) (m : String) (c : Bool) (s : State) :
    (UC_ASSERT_MSG cfg m c s).2.g_errorDetected = (s.g_errorDetected || !c) := by
  unfold UC_ASSERT_MSG _UC_FAIL_FAST
  cases c <;> cases h : cfg.UC_FAIL_FAST <;> simp

@[simp]
theorem assert_log (cfg : Config) (m : String) (c : Bool) (s : State) :
    (UC_ASSERT_MSG cfg m c s).2.log = s.log ++ [Event.assertion m c] := by
  unfold UC_ASSERT_MSG _UC_FAIL_FAST
  cases c <;> cases h : cfg.UC_FAIL_FAST <;> simp

theorem assert_out (cfg : Config) (m : String) (c : Bool) (s : State) :
    (UC_ASSERT_MSG cfg m c s).2.out =
      s.out ++ (if cfg.USE_PRINTF then [m, if c then " [OK]\r\n" else " [NOK]\r\n"] else []) := by
  unfold UC_ASSERT_MSG _UC_FAIL_FAST
  cases c <;> cases h : cfg.UC_FAIL_FAST <;> cases h2 : cfg.USE_PRINTF <;>
    simp [printf_out, h2]

/-- Unfolding of `runBody` on a non-empty body, by the condition of its first
assertion and the fail-fast switch. -/
theorem runBody_cons (cfg : Config) (a : Assertion) (rest : List Assertion) (ret : Bool)
    (s : State) :
    runBody cfg (a :: rest) ret s =
      if !a.condition && cfg.UC_FAIL_FAST then
        (false, (UC_ASSERT_MSG cfg a.message a.condition s).2)
      else runBody cfg rest ret (UC_ASSERT_MSG cfg a.message a.condition s).2 := by
  have h := assert_ctrl cfg a.message a.condition s
  rw [runBody]
  split
  · next r s1 heq =>
    rw [heq] at h
    by_cases hc : (!a.condition && cfg.UC_FAIL_FAST) = true
    · simp [hc] at h ⊢; simp [heq, h]
    · simp [hc] at h
  · next s1 heq =>
    rw [heq] at h
    by_cases hc : (!a.condition && cfg.UC_FAIL_FAST) = true
    · simp [hc] at h
    · simp [hc, heq]

/-! ## Test function bodies -/

theorem runBody_count (cfg : Config) (l : List Assertion) (ret : Bool) (s : State) :
    (runBody cfg l ret s).2.g_testFunctionCount = s.g_testFunctionCount := by
  induction l generalizing s with
  | nil => rfl
  | cons a rest ih =>
    rw [runBody_cons]
    split
    · simp
    · rw [ih]; simp

theorem runBody_log (cfg : Config) (l : List Assertion) (ret : Bool) (s : State) :
    (runBody cfg l ret s).2.log = s.log ++ bodyLog cfg l := by
  induction l generalizing s with
  | nil => simp [runBody, bodyLog]
  | cons a rest ih =>
    rw [runBody_cons, bodyLog]
    split
    · simp
    · rw [ih]; simp

theorem runBody_flag (cfg : Config) (l : List Assertion) (ret : Bool) (s : State) :
    (runBody cfg l ret s).2.g_errorDetected =
      (s.g_errorDetected || (bodyLog cfg l).any Event.isFailure) := by
  induction l generalizing s with
  | nil => simp [runBody, bodyLog]
  | cons a rest ih =>
    rw [runBody_cons, bodyLog]
    split
    · next h => simp [Event.isFailure]
    · next h => rw [ih]; simp [Event.isFailure, Bool.or_assoc]

theorem runBody_fst (cfg : Config) (l : List Assertion) (ret : Bool) (s : State) :
    (runBody cfg l ret s).1 =
      if cfg.UC_FAIL_FAST && l.any (fun a => !a.condition) then false else ret := by
  induction l generalizing s with
  | nil => simp [runBody]
  | cons a rest ih =>
    rw [runBody_cons]
    cases hc : a.condition <;> cases hf : cfg.UC_FAIL_FAST <;> simp [ih, hc, hf]

/-- The value a call returns does not depend on the state it is made in. -/
theorem call_fst (cfg : Config) (f : TestFunction) (s : State) :
    (f.call cfg s).1 = f.returns cfg := by
  unfold TestFunction.returns TestFunction.call
  rw [runBody_fst, runBody_fst]

theorem returns_eq (cfg : Config) (f : TestFunction) :
    f.returns cfg =
      if cfg.UC_FAIL_FAST && f.asserts.any (fun a => !a.condition) then false else f.ret := by
  unfold TestFunction.returns TestFunction.call
  rw [runBody_fst]

/-! ## Runner steps -/

theorem step_ctrl (cfg : Config) (f : TestFunction) (s : State) :
    (EXECUTE_TEST_CASE cfg f s).1 = if f.returns cfg then none else some false := by
  unfold EXECUTE_TEST_CASE
  simp only [call_fst]
  cases f.returns cfg <;> simp

theorem step_count (cfg : Config) (f : TestFunction) (s : State) :
    (EXECUTE_TEST_CASE cfg f s).2.g_testFunctionCount =
      (s.g_testFunctionCount + 1) % UINT32_MODULUS := by
  unfold EXECUTE_TEST_CASE
  simp only [call_fst]
  cases f.returns cfg <;> simp [TestFunction.call, runBody_count]

theorem step_log (cfg : Config) (f : TestFunction) (s : State) :
    (EXECUTE_TEST_CASE cfg f s).2.log = s.log ++ stepLog cfg f := by
  unfold EXECUTE_TEST_CASE stepLog
  simp only [call_fst]
  cases f.returns cfg <;> simp [TestFunction.call, runBody_log]

theorem step_flag (cfg : Config) (f : TestFunction) (s : State) :
    (EXECUTE_TEST_CASE cfg f s).2.g_errorDetected =
      (s.g_errorDetected || (stepLog cfg f).any Event.isFailure) := by
  unfold EXECUTE_TEST_CASE stepLog
  simp only [call_fst]
  cases f.returns cfg <;> simp [TestFunction.call, runBody_flag, Event.isFailure]

/-- Unfolding of `RunTests` on a non-empty registration list, by what the first
function returns. -/
theorem RunTests_cons (cfg : Config) (f : TestFunction) (rest : List TestFunction)
    (s : State) :
    RunTests cfg (f :: rest) s =
      if f.returns cfg then RunTests cfg rest (EXECUTE_TEST_CASE cfg f s).2
      else (false, (EXECUTE_TEST_CASE cfg f s).2) := by
  have h := step_ctrl cfg f s
  rw [RunTests]
  split
  · next r s1 heq =>
    rw [heq] at h
    cases hr : f.returns cfg
    · simp [hr] at h ⊢; simp [heq, h]
    · simp [hr] at h
  · next s1 heq =>
    rw [heq] at h
    cases hr : f.returns cfg
    · simp [hr] at h
    · simp [heq]

/-! ## Whole runs -/

theorem RunTests_fst (cfg : Config) (tests : List TestFunction) (s : State) :
    (RunTests cfg tests s).1 = tests.all (fun f => f.returns cfg) := by
  induction tests generalizing s with
  | nil => rfl
  | cons f rest ih =>
    rw [RunTests_cons]
    cases hr : f.returns cfg <;> simp [ih, hr]

theorem RunTests_log (cfg : Config) (tests : List TestFunction) (s : State) :
    (RunTests cfg tests s).2.log = s.log ++ runLog cfg tests := by
  induction tests generalizing s with
  | nil => simp [RunTests, runLog]
  | cons f rest ih =>
    rw [RunTests_cons, runLog]
    cases hr : f.returns cfg <;> simp [ih, step_log]

theorem RunTests_flag (cfg : Config) (tests : List TestFunction) (s : State) :
    (RunTests cfg tests s).2.g_errorDetected =
      (s.g_errorDetected || (runLog cfg tests).any Event.isFailure) := by
  induction tests generalizing s with
  | nil => simp [RunTests, runLog]
  | cons f rest ih =>
    rw [RunTests_cons, runLog]
    cases hr : f.returns cfg <;> simp [ih, step_flag, Bool.or_assoc]

theorem modulus_pos : 0 < UINT32_MODULUS := by decide

theorem RunTests_count (cfg : Config) (tests : List TestFunction) (s : State)
    (hs : s.g_testFunctionCount < UINT32_MODULUS) :
    (RunTests cfg tests s).2.g_testFunctionCount =
      (s.g_testFunctionCount + (invokedFunctions cfg tests).length) % UINT32_MODULUS := by
  induction tests generalizing s with
  | nil =>
    simp only [RunTests, invokedFunctions, List.length_nil, Nat.add_zero]
    exact (Nat.mod_eq_of_lt hs).symm
  | cons f rest ih =>
    have hM : 0 < UINT32_MODULUS := by decide
    rw [RunTests_cons, invokedFunctions]
    cases hr : f.returns cfg
    · simp [step_count]
    · simp only [if_true]
      rw [ih _ (by rw [step_count]; exact Nat.mod_lt _ hM), step_count, Nat.mod_add_mod]
      simp [Nat.add_assoc, Nat.add_comm]

theorem invokedNames_append (l₁ l₂ : List Event) :
    invokedNames (l₁ ++ l₂) = invokedNames l₁ ++ invokedNames l₂ := by
  induction l₁ with
  | nil => rfl
  | cons e es ih => cases e <;> simp [invokedNames, ih]

theorem returnedResults_append (l₁ l₂ : List Event) :
    returnedResults (l₁ ++ l₂) = returnedResults l₁ ++ returnedResults l₂ := by
  induction l₁ with
  | nil => rfl
  | cons e es ih => cases e <;> simp [returnedResults, ih]

theorem evaluatedAssertions_append (l₁ l₂ : List Event) :
    evaluatedAssertions (l₁ ++ l₂) = evaluatedAssertions l₁ ++ evaluatedAssertions l₂ := by
  induction l₁ with
  | nil => rfl
  | cons e es ih => cases e <;> simp [evaluatedAssertions, ih]

theorem invokedNames_bodyLog (cfg : Config) (l : List Assertion) :
    invokedNames (bodyLog cfg l) = [] := by
  induction l with
  | nil => rfl
  | cons a rest ih =>
    rw [bodyLog]
    split <;> simp [invokedNames, ih]

theorem returnedResults_bodyLog (cfg : Config) (l : List Assertion) :
    returnedResults (bodyLog cfg l) = [] := by
  induction l with
  | nil => rfl
  | cons a rest ih =>
    rw [bodyLog]
    split <;> simp [returnedResults, ih]

theorem invokedNames_stepLog (cfg : Config) (f : TestFunction) :
    invokedNames (stepLog cfg f) = [f.name] := by
  simp [stepLog, invokedNames, invokedNames_append, invokedNames_bodyLog]

theorem returnedResults_stepLog (cfg : Config) (f : TestFunction) :
    returnedResults (stepLog cfg f) = [f.returns cfg] := by
  simp [stepLog, returnedResults, returnedResults_append, returnedResults_bodyLog]

theorem invokedNames_runLog (cfg : Config) (tests : List TestFunction) :
    invokedNames (runLog cfg tests) = (invokedFunctions cfg tests).map (fun f => f.name) := by
  induction tests with
  | nil => rfl
  | cons f rest ih =>
    rw [runLog, invokedFunctions, invokedNames_append, invokedNames_stepLog]
    cases f.returns cfg <;> simp [ih, invokedNames]

theorem returnedResults_runLog (cfg : Config) (tests : List TestFunction) :
    returnedResults (runLog cfg tests) =
      (invokedFunctions cfg tests).map (fun f => f.returns cfg) := by
  induction tests with
  | nil => rfl
  | cons f rest ih =>
    rw [runLog, invokedFunctions, returnedResults_append, returnedResults_stepLog]
    cases hr : f.returns cfg <;> simp [ih, returnedResults, hr]

/-- When the functions of `pre` all return true and `f` returns false, the runner
calls exactly `pre` and then `f`. -/
theorem invokedFunctions_split (cfg : Config) (pre post : List TestFunction)
    (f : TestFunction) (hpre : ∀ g ∈ pre, g.returns cfg = true)
    (hf : f.returns cfg = false) :
    invokedFunctions cfg (pre ++ f :: post) = pre ++ [f] := by
  induction pre with
  | nil => simp [invokedFunctions, hf]
  | cons g rest ih =>
    have hg : g.returns cfg = true := hpre g (List.mem_cons_self _ _)
    have hrest : ∀ g ∈ rest, g.returns cfg = true :=
      fun g hg => hpre g (List.mem_cons_of_mem _ hg)
    simp [invokedFunctions, hg, ih hrest]

/-- When every registered function returns true, the runner calls all of them. -/
theorem invokedFunctions_all (cfg : Config) (tests : List TestFunction)
    (h : ∀ g ∈ tests, g.returns cfg = true) :
    invokedFunctions cfg tests = tests := by
  induction tests with
  | nil => rfl
  | cons g rest ih =>
    have hg : g.returns cfg = true := h g (List.mem_cons_self _ _)
    have hrest : ∀ g ∈ rest, g.returns cfg = true :=
      fun g hg => h g (List.mem_cons_of_mem _ hg)
    simp [invokedFunctions, hg, ih hrest]

/-- Whether the runner returns true can be read off the functions it called. -/
theorem all_invoked (cfg : Config) (tests : List TestFunction) :
    tests.all (fun f => f.returns cfg) =
      (invokedFunctions cfg tests).all (fun f => f.returns cfg) := by
  induction tests with
  | nil => rfl
  | cons f rest ih =>
    rw [invokedFunctions]
    cases hr : f.returns cfg <;> simp [hr, ih]

/-- A list splits around its element at position `n`. -/
theorem split_at_index {α : Type} (l : List α) (n : Nat) (x : α) (h : l[n]? = some x) :
    l = l.take n ++ x :: l.drop (n + 1) ∧ l.take (n + 1) = l.take n ++ [x] := by
  induction l generalizing n with
  | nil => simp at h
  | cons y ys ih =>
    cases n with
    | zero =>
      simp at h
      simp [h]
    | succ k =>
      simp at h
      have := ih k h
      constructor
      · simp only [List.take_succ_cons, List.drop_succ_cons, List.cons_append]
        rw [← this.1]
      · simp only [List.take_succ_cons, List.cons_append]
        rw [this.2]

theorem replicate_append_getElem? {α : Type} (n : Nat) (p q : α) :
    (List.replicate n p ++ [q])[n]? = some q := by
  rw [List.getElem?_append_right (by simp)]
  simp

theorem replicate_append_take {α : Type} (n : Nat) (p q : α) :
    (List.replicate n p ++ [q]).take n = List.replicate n p := by
  rw [List.take_append_of_le_length (by simp)]
  rw [List.take_of_length_le (by simp)]

/-- Counter after a run over `n` copies of a function that returns true followed by
one that returns false, from a counter of zero. -/
theorem count_replicate_then_failing (cfg : Config) (n : Nat) (p q : TestFunction)
    (e : Bool) (o : List String)
    (hp : p.returns cfg = true) (hq : q.returns cfg = false) :
    (RunTests cfg (List.replicate n p ++ [q])
      { g_testFunctionCount := 0, g_errorDetected := e, out := o, log := [] }).2.g_testFunctionCount
      = (n + 1) % UINT32_MODULUS := by
  rw [RunTests_count _ _ _ modulus_pos]
  rw [invokedFunctions_split cfg _ [] q
    (fun g hg => by rw [List.eq_of_mem_replicate hg]; exact hp) hq]
  simp

/-- Counter after a run over `n` copies of a function that returns true, from a
counter of zero. -/
theorem count_replicate (cfg : Config) (n : Nat) (p : TestFunction)
    (e : Bool) (o : List String) (hp : p.returns cfg = true) :
    (RunTests cfg (List.replicate n p)
      { g_testFunctionCount := 0, g_errorDetected := e, out := o, log := [] }).2.g_testFunctionCount
      = n % UINT32_MODULUS := by
  rw [RunTests_count _ _ _ modulus_pos]
  rw [invokedFunctions_all cfg _ (fun g hg => by rw [List.eq_of_mem_replicate hg]; exact hp)]
  simp

/-- A body whose assertions all have a true condition logs no failure. -/
theorem bodyLog_no_failure (cfg : Config) (l : List Assertion)
    (h : ∀ a ∈ l, a.condition = true) :
    (bodyLog cfg l).any Event.isFailure = false := by
  induction l with
  | nil => rfl
  | cons a rest ih =>
    have ha : a.condition = true := h a (List.mem_cons_self _ _)
    have hrest : ∀ a ∈ rest, a.condition = true :=
      fun a ha => h a (List.mem_cons_of_mem _ ha)
    have ih2 := ih hrest
    simp only [List.any_eq_false] at ih2
    simp only [bodyLog, ha, Bool.not_true, Bool.false_and, List.any_cons, Event.isFailure,
      Bool.false_or, List.any_eq_false]
    exact ih2

theorem stepLog_any_failure (cfg : Config) (f : TestFunction) :
    (stepLog cfg f).any Event.isFailure = (bodyLog cfg f.asserts).any Event.isFailure := by
  simp [stepLog, Event.isFailure]

/-- A run in which every assertion condition is true logs no failure. -/
theorem runLog_no_failure (cfg : Config) (tests : List TestFunction)
    (h : ∀ f ∈ tests, ∀ a ∈ f.asserts, a.condition = true) :
    (runLog cfg tests).any Event.isFailure = false := by
  induction tests with
  | nil => rfl
  | cons f rest ih =>
    have hf := bodyLog_no_failure cfg f.asserts (h f (List.mem_cons_self _ _))
    have hrest := ih (fun g hg => h g (List.mem_cons_of_mem _ hg))
    rw [runLog, List.any_append, stepLog_any_failure, hf]
    cases f.returns cfg
    · rfl
    · simpa using hrest

/-- A log has a failure exactly when one of the assertions it records was false. -/
theorem evaluated_true_of_no_failure (l : List Event) (h : l.any Event.isFailure = false)
    (a : Assertion) (ha : a ∈ evaluatedAssertions l) : a.condition = true := by
  induction l with
  | nil => simp [evaluatedAssertions] at ha
  | cons p rest ih =>
    simp only [List.any_cons, Bool.or_eq_false_iff] at h
    cases p with
    | assertion m c =>
      simp only [evaluatedAssertions, List.mem_cons] at ha
      rcases ha with ha | ha
      · subst ha
        simpa [Event.isFailure] using h.1
      · exact ih h.2 ha
    | invoke n => exact ih h.2 (by simpa [evaluatedAssertions] using ha)
    | returned n r => exact ih h.2 (by simpa [evaluatedAssertions] using ha)

theorem no_failure_of_evaluated_true (l : List Event)
    (h : ∀ a ∈ evaluatedAssertions l, a.condition = true) :
    l.any Event.isFailure = false := by
  induction l with
  | nil => rfl
  | cons p rest ih =>
    cases p with
    | assertion m c =>
      have hc : c = true := h { message := m, condition := c } (by simp [evaluatedAssertions])
      have hrest := ih (fun a ha => h a (by simp [evaluatedAssertions, ha]))
      rw [List.any_cons, hrest, hc]
      rfl
    | invoke n =>
      have hrest := ih (fun a ha => h a (by simpa [evaluatedAssertions] using ha))
      rw [List.any_cons, hrest]
      rfl
    | returned n r =>
      have hrest := ih (fun a ha => h a (by simpa [evaluatedAssertions] using ha))
      rw [List.any_cons, hrest]
      rfl

theorem failure_of_evaluated_false (l : List Event) (a : Assertion)
    (ha : a ∈ evaluatedAssertions l) (hc : a.condition = false) :
    l.any Event.isFailure = true := by
  by_contra h
  have := evaluated_true_of_no_failure l (by simpa using h) a ha
  rw [hc] at this
  exact absurd this (by simp)

/-! ## Logs of fail-fast runs -/

/-- In a log that stops after its first failure, whatever way the log is cut at a
failed assertion, no failure precedes the cut and a single return of false follows. -/
theorem stopsAfterFailure_cut (l pre post : List Event) (m : String)
    (h : stopsAfterFailure l = true) (hl : l = pre ++ Event.assertion m false :: post) :
    (∃ n, post = [Event.returned n false]) ∧ pre.any Event.isFailure = false := by
  induction pre generalizing l with
  | nil =>
    subst hl
    simp only [List.nil_append, stopsAfterFailure] at h
    refine ⟨?_, rfl⟩
    split at h
    · next n => exact ⟨n, rfl⟩
    · exact absurd h (by simp)
  | cons p rest ih =>
    subst hl
    cases p with
    | assertion m' c' =>
      cases c' with
      | false =>
        simp only [List.cons_append, stopsAfterFailure] at h
        split at h
        · next n heq =>
          cases rest with
          | nil => simp at heq
          | cons r rs => simp at heq
        · exact absurd h (by simp)
      | true =>
        simp only [List.cons_append, stopsAfterFailure] at h
        have := ih _ h rfl
        exact ⟨this.1, by simpa [Event.isFailure] using this.2⟩
    | invoke n =>
      simp only [List.cons_append, stopsAfterFailure] at h
      have := ih _ h rfl
      exact ⟨this.1, by simpa [Event.isFailure] using this.2⟩
    | returned n r =>
      simp only [List.cons_append, stopsAfterFailure] at h
      have := ih _ h rfl
      exact ⟨this.1, by simpa [Event.isFailure] using this.2⟩

theorem stopsAfterFailure_append (l₁ l₂ : List Event)
    (h : l₁.any Event.isFailure = false) :
    stopsAfterFailure (l₁ ++ l₂) = stopsAfterFailure l₂ := by
  induction l₁ with
  | nil => rfl
  | cons p rest ih =>
    simp only [List.any_cons, Bool.or_eq_false_iff] at h
    cases p with
    | assertion m c =>
      cases c with
      | false => simp [Event.isFailure] at h
      | true => simpa [stopsAfterFailure] using ih h.2
    | invoke n => simpa [stopsAfterFailure] using ih h.2
    | returned n r => simpa [stopsAfterFailure] using ih h.2

theorem stopsAfterFailure_body (cfg : Config) (hff : cfg.UC_FAIL_FAST = true)
    (l : List Assertion) (ret : Bool) (n : String) :
    stopsAfterFailure (bodyLog cfg l ++
      [Event.returned n
        (if cfg.UC_FAIL_FAST && l.any (fun a => !a.condition) then false else ret)]) = true := by
  induction l with
  | nil => cases ret <;> simp [bodyLog, stopsAfterFailure]
  | cons a rest ih =>
    cases hc : a.condition
    · simp [bodyLog, hc, hff, stopsAfterFailure]
    · simp only [bodyLog, hc, List.any_cons, Bool.not_true, Bool.false_or, Bool.false_and,
        List.cons_append, stopsAfterFailure, Bool.false_eq_true, if_false]
      exact ih

theorem stopsAfterFailure_step (cfg : Config) (hff : cfg.UC_FAIL_FAST = true)
    (f : TestFunction) : stopsAfterFailure (stepLog cfg f) = true := by
  rw [stepLog, returns_eq]
  simp only [stopsAfterFailure]
  exact stopsAfterFailure_body cfg hff f.asserts f.ret f.name

/-- Under fail-fast a function that returns true has evaluated no false assertion. -/
theorem stepLog_no_failure (cfg : Config) (hff : cfg.UC_FAIL_FAST = true)
    (f : TestFunction) (hr : f.returns cfg = true) :
    (stepLog cfg f).any Event.isFailure = false := by
  rw [stepLog_any_failure]
  apply bodyLog_no_failure
  intro a ha
  rw [returns_eq, hff] at hr
  by_contra hc
  have : f.asserts.any (fun a => !a.condition) = true := by
    rw [List.any_eq_true]
    exact ⟨a, ha, by simpa using hc⟩
  simp [this] at hr

theorem stopsAfterFailure_run (cfg : Config) (hff : cfg.UC_FAIL_FAST = true)
    (tests : List TestFunction) : stopsAfterFailure (runLog cfg tests) = true := by
  induction tests with
  | nil => rfl
  | cons f rest ih =>
    rw [runLog]
    cases hr : f.returns cfg
    · simpa using stopsAfterFailure_step cfg hff f
    · rw [stopsAfterFailure_append _ _ (stepLog_no_failure cfg hff f hr)]
      simpa using ih

/-- Under fail-fast a run in which every registered function returns true has
evaluated no false assertion. -/
theorem runLog_no_failure_of_all (cfg : Config) (hff : cfg.UC_FAIL_FAST = true)
    (tests : List TestFunction) (h : tests.all (fun f => f.returns cfg) = true) :
    (runLog cfg tests).any Event.isFailure = false := by
  induction tests with
  | nil => rfl
  | cons f rest ih =>
    simp only [List.all_cons, Bool.and_eq_true] at h
    rw [runLog, List.any_append, stepLog_no_failure cfg hff f h.1, h.1]
    simpa using ih h.2

theorem invokedFunctions_length_le (cfg : Config) (tests : List TestFunction) :
    (invokedFunctions cfg tests).length ≤ tests.length := by
  induction tests with
  | nil => simp [invokedFunctions]
  | cons f rest ih =>
    rw [invokedFunctions]
    cases f.returns cfg
    · simp
    · simpa using ih

theorem call_count (cfg : Config) (f : TestFunction) (s : State) :
    (f.call cfg s).2.g_testFunctionCount = s.g_testFunctionCount :=
  runBody_count cfg f.asserts f.ret s

theorem call_flag_mono (cfg : Config) (f : TestFunction) (s : State)
    (h : s.g_errorDetected = true) : (f.call cfg s).2.g_errorDetected = true := by
  rw [TestFunction.call, runBody_flag, h]
  rfl

/-! ## What is emitted -/

theorem emittedOf_append (l₁ l₂ : List Event) :
    emittedOf (l₁ ++ l₂) = emittedOf l₁ ++ emittedOf l₂ := by
  induction l₁ with
  | nil => rfl
  | cons e es ih => simp [emittedOf, ih]

theorem runBody_out (cfg : Config) (l : List Assertion) (ret : Bool) (s : State) :
    (runBody cfg l ret s).2.out =
      s.out ++ (if cfg.USE_PRINTF then emittedOf (bodyLog cfg l) else []) := by
  induction l generalizing s with
  | nil => simp [runBody, bodyLog, emittedOf]
  | cons a rest ih =>
    rw [runBody_cons, bodyLog]
    cases hp : cfg.USE_PRINTF <;> cases hc : a.condition <;> cases hf : cfg.UC_FAIL_FAST <;>
      simp [ih, assert_out, hp, emittedOf, Event.emitted]

theorem step_out (cfg : Config) (f : TestFunction) (s : State) :
    (EXECUTE_TEST_CASE cfg f s).2.out =
      s.out ++ (if cfg.USE_PRINTF then emittedOf (stepLog cfg f) else []) := by
  unfold EXECUTE_TEST_CASE stepLog
  simp only [call_fst]
  cases hp : cfg.USE_PRINTF <;> cases hr : f.returns cfg <;>
    simp [TestFunction.call, runBody_out, printf_out, hp, emittedOf, emittedOf_append,
      Event.emitted]

theorem RunTests_out (cfg : Config) (tests : List TestFunction) (s : State) :
    (RunTests cfg tests s).2.out =
      s.out ++ (if cfg.USE_PRINTF then emittedOf (runLog cfg tests) else []) := by
  induction tests generalizing s with
  | nil => simp [RunTests, runLog, emittedOf]
  | cons f rest ih =>
    rw [RunTests_cons, runLog]
    cases hp : cfg.USE_PRINTF <;> cases hr : f.returns cfg <;>
      simp [ih, step_out, hp, emittedOf_append, emittedOf]

/-! ## Independence of the message sink -/

theorem returns_congr (c₁ c₂ : Config) (h : c₁.UC_FAIL_FAST = c₂.UC_FAIL_FAST)
    (f : TestFunction) : f.returns c₁ = f.returns c₂ := by
  rw [returns_eq, returns_eq, h]

theorem bodyLog_congr (c₁ c₂ : Config) (h : c₁.UC_FAIL_FAST = c₂.UC_FAIL_FAST)
    (l : List Assertion) : bodyLog c₁ l = bodyLog c₂ l := by
  induction l with
  | nil => rfl
  | cons a rest ih => simp [bodyLog, ih, h]

theorem runLog_congr (c₁ c₂ : Config) (h : c₁.UC_FAIL_FAST = c₂.UC_FAIL_FAST)
    (tests : List TestFunction) : runLog c₁ tests = runLog c₂ tests := by
  induction tests with
  | nil => rfl
  | cons f rest ih =>
    simp [runLog, stepLog, ih, returns_congr c₁ c₂ h, bodyLog_congr c₁ c₂ h]

theorem invokedFunctions_congr (c₁ c₂ : Config) (h : c₁.UC_FAIL_FAST = c₂.UC_FAIL_FAST)
    (tests : List TestFunction) : invokedFunctions c₁ tests = invokedFunctions c₂ tests := by
  induction tests with
  | nil => rfl
  | cons f rest ih => simp [invokedFunctions, ih, returns_congr c₁ c₂ h]

/-- The counter after a run, from any start value: one increment per function called. -/
theorem RunTests_count_iterate (cfg : Config) (tests : List TestFunction) (s : State) :
    (RunTests cfg tests s).2.g_testFunctionCount =
      incrementCounter^[(invokedFunctions cfg tests).length] s.g_testFunctionCount := by
  induction tests generalizing s with
  | nil => rfl
  | cons f rest ih =>
    rw [RunTests_cons, invokedFunctions]
    cases hr : f.returns cfg
    · simp [step_count, incrementCounter]
    · simp [ih, step_count, incrementCounter]

/-! ## Prefixes, the driver, and runs without fail-fast -/

/-- The functions called are the registered ones that return true up to the first that
does not, and that one. -/
theorem invokedFunctions_eq_takeWhile (cfg : Config) (tests : List TestFunction) :
    invokedFunctions cfg tests =
      tests.takeWhile (fun f => f.returns cfg) ++
        (tests.dropWhile (fun f => f.returns cfg)).take 1 := by
  induction tests with
  | nil => rfl
  | cons f rest ih =>
    rw [invokedFunctions, List.takeWhile_cons, List.dropWhile_cons]
    cases hr : f.returns cfg <;> simp [ih]

/-- The functions called form an initial segment of the registration list. -/
theorem invokedFunctions_eq_take (cfg : Config) (tests : List TestFunction) :
    invokedFunctions cfg tests = tests.take (invokedFunctions cfg tests).length := by
  induction tests with
  | nil => rfl
  | cons f rest ih =>
    rw [invokedFunctions]
    cases hr : f.returns cfg
    · simp
    · simp only [if_true, List.length_cons, List.take_succ_cons]
      rw [← ih]

theorem main_out (cfg : Config) (tests : List TestFunction) (s : State) :
    (main cfg tests s).2.out =
      (RunTests cfg tests s).2.out ++
        [if (RunTests cfg tests s).1 = true ∧ (RunTests cfg tests s).2.g_errorDetected = false
          then "All test cases successfully passed.\n" else "Error detected.\n",
         "Executed " ++ toString (RunTests cfg tests s).2.g_testFunctionCount
            ++ " test functions.\n"] := by
  unfold main NO_ERROR_DETECTED printf
  generalize RunTests cfg tests s = r
  obtain ⟨b, t⟩ := r
  cases b <;> cases h : t.g_errorDetected <;> simp [h]

/-- Without fail-fast a test function returns what its `return` statement says. -/
theorem returns_of_not_fail_fast (cfg : Config) (hff : cfg.UC_FAIL_FAST = false)
    (f : TestFunction) : f.returns cfg = f.ret := by
  rw [returns_eq, hff]
  simp

theorem returns_eraseConditions (cfg : Config) (hff : cfg.UC_FAIL_FAST = false)
    (f : TestFunction) : f.eraseConditions.returns cfg = f.returns cfg := by
  rw [returns_of_not_fail_fast cfg hff, returns_of_not_fail_fast cfg hff]
  rfl

theorem invokedFunctions_eraseConditions (cfg : Config) (hff : cfg.UC_FAIL_FAST = false)
    (tests : List TestFunction) :
    invokedFunctions cfg (tests.map TestFunction.eraseConditions) =
      (invokedFunctions cfg tests).map TestFunction.eraseConditions := by
  induction tests with
  | nil => rfl
  | cons f rest ih =>
    simp only [List.map_cons, invokedFunctions, returns_eraseConditions cfg hff, ih]
    cases f.returns cfg <;> simp

theorem all_returns_eraseConditions (cfg : Config) (hff : cfg.UC_FAIL_FAST = false)
    (tests : List TestFunction) :
    (tests.map TestFunction.eraseConditions).all (fun f => f.returns cfg) =
      tests.all (fun f => f.returns cfg) := by
  induction tests with
  | nil => rfl
  | cons f rest ih =>
    simp only [List.map_cons, List.all_cons, returns_eraseConditions cfg hff, ih]

theorem map_name_eraseConditions (l : List TestFunction) :
    (l.map TestFunction.eraseConditions).map (fun f => f.name) = l.map (fun f => f.name) := by
  induction l with
  | nil => rfl
  | cons f rest ih => simp [TestFunction.eraseConditions]

/-! ## The counter at the moment of a call -/

theorem printf_counterAtCall (cfg : Config) (t : String) (s : State) :
    (UC_PRINTF_FUNCTION cfg t s).counterAtCall = s.counterAtCall := by
  unfold UC_PRINTF_FUNCTION; split <;> rfl

theorem assert_counterAtCall (cfg : Config) (m : String) (c : Bool) (s : State) :
    (UC_ASSERT_MSG cfg m c s).2.counterAtCall = s.counterAtCall := by
  unfold UC_ASSERT_MSG _UC_FAIL_FAST
  cases c <;> cases h : cfg.UC_FAIL_FAST <;> simp [printf_counterAtCall]

theorem runBody_counterAtCall (cfg : Config) (l : List Assertion) (ret : Bool) (s : State) :
    (runBody cfg l ret s).2.counterAtCall = s.counterAtCall := by
  induction l generalizing s with
  | nil => rfl
  | cons a rest ih =>
    rw [runBody_cons]
    split
    · simp [assert_counterAtCall]
    · rw [ih]; simp [assert_counterAtCall]

/-- A runner step records the counter it calls the test function with: the value
already incremented. -/
theorem step_counterAtCall (cfg : Config) (f : TestFunction) (s : State) :
    (EXECUTE_TEST_CASE cfg f s).2.counterAtCall =
      s.counterAtCall ++ [incrementCounter s.g_testFunctionCount] := by
  unfold EXECUTE_TEST_CASE incrementCounter
  simp only [call_fst]
  cases f.returns cfg <;>
    simp [TestFunction.call, runBody_counterAtCall, printf_counterAtCall]

theorem RunTests_counterAtCall (cfg : Config) (tests : List TestFunction) (s : State) :
    (RunTests cfg tests s).2.counterAtCall =
      s.counterAtCall ++
        List.iterate incrementCounter (incrementCounter s.g_testFunctionCount)
          (invokedFunctions cfg tests).length := by
  induction tests generalizing s with
  | nil => simp [RunTests, invokedFunctions, List.iterate]
  | cons f rest ih =>
    rw [RunTests_cons, invokedFunctions]
    cases hr : f.returns cfg
    · simp [step_counterAtCall, List.iterate]
    · simp [ih, step_counterAtCall, step_count, List.iterate, incrementCounter]

/-- As long as the counter stays below 2^32, successive increments enumerate
successive numbers. -/
theorem iterate_incrementCounter (n a : Nat) (h : a + n ≤ UINT32_MODULUS) :
    List.iterate incrementCounter a n = List.range' a n := by
  induction n generalizing a with
  | zero => rfl
  | succ k ih =>
    cases k with
    | zero => simp [List.iterate, List.range']
    | succ j =>
      have hlt : a + 1 < UINT32_MODULUS := by omega
      have hinc : incrementCounter a = a + 1 := Nat.mod_eq_of_lt hlt
      rw [List.iterate, hinc, ih (a + 1) (by omega)]
      simp [List.range']

/-! ## The claims -/

/-- C1 (as amended): if the K-th registered function (1-indexed) is the first one
that returns false, then, under either fail-fast setting and either message sink, the
runner returns false, the functions called are exactly the first K in registration
order (none after the K-th), and `g_testFunctionCount`, started from 0, ends at
K modulo 2^32, which is K itself whenever K is below 2^32. -/
theorem first_false_stops_runner (cfg : Config) (tests : List TestFunction) (K : Nat)
    (f : TestFunction) (e : Bool) (o : List String)
    (hK : 0 < K) (hf : tests[K - 1]? = some f)
    (hpre : ∀ g ∈ tests.take (K - 1), g.returns cfg = true)
    (hfalse : f.returns cfg = false) :
    (RunTests cfg tests
        { g_testFunctionCount := 0, g_errorDetected := e, out := o, log := [] }).1 = false ∧
    (RunTests cfg tests
        { g_testFunctionCount := 0, g_errorDetected := e, out := o, log := [] }).2.g_testFunctionCount
      = K % UINT32_MODULUS ∧
    (K < UINT32_MODULUS →
      (RunTests cfg tests
        { g_testFunctionCount := 0, g_errorDetected := e, out := o, log := [] }).2.g_testFunctionCount
      = K) ∧
    invokedNames (RunTests cfg tests
        { g_testFunctionCount := 0, g_errorDetected := e, out := o, log := [] }).2.log
      = (tests.take K).map (fun g => g.name) := by
  obtain ⟨hsplit, htake⟩ := split_at_index tests (K - 1) f hf
  have hK1 : K - 1 + 1 = K := by omega
  rw [hK1] at hsplit htake
  have hinv : invokedFunctions cfg tests = tests.take K := by
    rw [htake]
    conv_lhs => rw [hsplit]
    exact invokedFunctions_split cfg _ _ f hpre hfalse
  have hlen : (tests.take K).length = K := by
    have h1 : K - 1 < tests.length := by
      by_contra hge
      rw [List.getElem?_eq_none (by omega)] at hf
      exact absurd hf (by simp)
    rw [List.length_take]; omega
  have hcount := RunTests_count cfg tests
    { g_testFunctionCount := 0, g_errorDetected := e, out := o, log := [] } modulus_pos
  rw [hinv, hlen] at hcount
  simp only [Nat.zero_add] at hcount
  refine ⟨?_, hcount, ?_, ?_⟩
  · rw [RunTests_fst, all_invoked, hinv, htake]
    simp [hfalse]
  · intro hlt
    rw [hcount, Nat.mod_eq_of_lt hlt]
  · rw [RunTests_log, List.nil_append, invokedNames_runLog, hinv]

/-- Witness for C1: the demo suite with a third registration, under fail-fast, where
the second function is the first to return false. -/
theorem first_false_stops_runner_witness :
    (0 < 2 ∧ [TestCase1, TestCase2, TestCase1][2 - 1]? = some TestCase2 ∧
      (∀ g ∈ [TestCase1, TestCase2, TestCase1].take (2 - 1),
        g.returns { USE_PRINTF := true, UC_FAIL_FAST := true } = true) ∧
      TestCase2.returns { USE_PRINTF := true, UC_FAIL_FAST := true } = false) ∧
    ((RunTests { USE_PRINTF := true, UC_FAIL_FAST := true } [TestCase1, TestCase2, TestCase1]
        { g_testFunctionCount := 0, g_errorDetected := false, out := [], log := [] }).1 = false ∧
    (RunTests { USE_PRINTF := true, UC_FAIL_FAST := true } [TestCase1, TestCase2, TestCase1]
        { g_testFunctionCount := 0, g_errorDetected := false, out := [], log := [] }).2.g_testFunctionCount
      = 2 % UINT32_MODULUS ∧
    (2 < UINT32_MODULUS →
      (RunTests { USE_PRINTF := true, UC_FAIL_FAST := true } [TestCase1, TestCase2, TestCase1]
        { g_testFunctionCount := 0, g_errorDetected := false, out := [], log := [] }).2.g_testFunctionCount
      = 2) ∧
    invokedNames (RunTests { USE_PRINTF := true, UC_FAIL_FAST := true }
        [TestCase1, TestCase2, TestCase1]
        { g_testFunctionCount := 0, g_errorDetected := false, out := [], log := [] }).2.log
      = ([TestCase1, TestCase2, TestCase1].take 2).map (fun g => g.name)) :=
  ⟨⟨by decide, by decide, by decide, by decide⟩,
    first_false_stops_runner { USE_PRINTF := true, UC_FAIL_FAST := true }
      [TestCase1, TestCase2, TestCase1] 2 TestCase2 false []
      (by decide) (by decide) (by decide) (by decide)⟩

/-- C1 as stated fails: register 4294967295 copies of `TestCase1` and then a function
that returns false, fail-fast disabled.  The 4294967296-th function is the first to
return false, the runner returns false, yet the 32-bit counter has wrapped to 0 and
is not K = 4294967296. -/
theorem first_false_counter_wraps :
    (List.replicate 4294967295 TestCase1 ++ [failingTest])[4294967296 - 1]? = some failingTest ∧
    (∀ g ∈ (List.replicate 4294967295 TestCase1 ++ [failingTest]).take (4294967296 - 1),
      g.returns { USE_PRINTF := false, UC_FAIL_FAST := false } = true) ∧
    failingTest.returns { USE_PRINTF := false, UC_FAIL_FAST := false } = false ∧
    (RunTests { USE_PRINTF := false, UC_FAIL_FAST := false }
      (List.replicate 4294967295 TestCase1 ++ [failingTest])
      { g_testFunctionCount := 0, g_errorDetected := false, out := [], log := [] }).2.g_testFunctionCount
      = 0 ∧
    (RunTests { USE_PRINTF := false, UC_FAIL_FAST := false }
      (List.replicate 4294967295 TestCase1 ++ [failingTest])
      { g_testFunctionCount := 0, g_errorDetected := false, out := [], log := [] }).2.g_testFunctionCount
      ≠ 4294967296 := by
  have hcount := count_replicate_then_failing { USE_PRINTF := false, UC_FAIL_FAST := false }
    4294967295 TestCase1 failingTest false [] (by decide) (by decide)
  have hzero : (4294967295 + 1) % UINT32_MODULUS = 0 := by decide
  rw [hzero] at hcount
  refine ⟨replicate_append_getElem? 4294967295 TestCase1 failingTest, ?_, by decide, hcount, ?_⟩
  · intro g hg
    have h4 : 4294967296 - 1 = 4294967295 := by decide
    rw [h4, replicate_append_take] at hg
    rw [List.eq_of_mem_replicate hg]
    decide
  · rw [hcount]
    decide

/-- C2 (as amended): when every registered function returns true and every assertion
condition is true, a run started from `g_testFunctionCount = 0` and
`g_errorDetected = false` makes the runner return true and leaves the flag false;
the counter ends at N modulo 2^32, N the number of registered functions, which is N
itself whenever N is below 2^32. -/
theorem all_pass_run (cfg : Config) (tests : List TestFunction) (o : List String)
    (hret : ∀ f ∈ tests, f.returns cfg = true)
    (hcond : ∀ f ∈ tests, ∀ a ∈ f.asserts, a.condition = true) :
    (RunTests cfg tests
        { g_testFunctionCount := 0, g_errorDetected := false, out := o, log := [] }).1 = true ∧
    (RunTests cfg tests
        { g_testFunctionCount := 0, g_errorDetected := false, out := o, log := [] }).2.g_testFunctionCount
      = tests.length % UINT32_MODULUS ∧
    (tests.length < UINT32_MODULUS →
      (RunTests cfg tests
        { g_testFunctionCount := 0, g_errorDetected := false, out := o, log := [] }).2.g_testFunctionCount
      = tests.length) ∧
    (RunTests cfg tests
        { g_testFunctionCount := 0, g_errorDetected := false, out := o, log := [] }).2.g_errorDetected
      = false := by
  have hcount := RunTests_count cfg tests
    { g_testFunctionCount := 0, g_errorDetected := false, out := o, log := [] } modulus_pos
  rw [invokedFunctions_all cfg tests hret] at hcount
  simp only [Nat.zero_add] at hcount
  refine ⟨?_, hcount, ?_, ?_⟩
  · rw [RunTests_fst, List.all_eq_true]
    exact hret
  · intro hlt
    rw [hcount, Nat.mod_eq_of_lt hlt]
  · rw [RunTests_flag, runLog_no_failure cfg tests hcond]
    rfl

/-- Witness for C2: `TestCase1` registered twice, fail-fast enabled. -/
theorem all_pass_run_witness :
    ((∀ f ∈ [TestCase1, TestCase1],
        f.returns { USE_PRINTF := true, UC_FAIL_FAST := true } = true) ∧
      (∀ f ∈ [TestCase1, TestCase1], ∀ a ∈ f.asserts, a.condition = true)) ∧
    ((RunTests { USE_PRINTF := true, UC_FAIL_FAST := true } [TestCase1, TestCase1]
        { g_testFunctionCount := 0, g_errorDetected := false, out := [], log := [] }).1 = true ∧
    (RunTests { USE_PRINTF := true, UC_FAIL_FAST := true } [TestCase1, TestCase1]
        { g_testFunctionCount := 0, g_errorDetected := false, out := [], log := [] }).2.g_testFunctionCount
      = [TestCase1, TestCase1].length % UINT32_MODULUS ∧
    ([TestCase1, TestCase1].length < UINT32_MODULUS →
      (RunTests { USE_PRINTF := true, UC_FAIL_FAST := true } [TestCase1, TestCase1]
        { g_testFunctionCount := 0, g_errorDetected := false, out := [], log := [] }).2.g_testFunctionCount
      = [TestCase1, TestCase1].length) ∧
    (RunTests { USE_PRINTF := true, UC_FAIL_FAST := true } [TestCase1, TestCase1]
        { g_testFunctionCount := 0, g_errorDetected := false, out := [], log := [] }).2.g_errorDetected
      = false) :=
  ⟨⟨by decide, by decide⟩,
    all_pass_run { USE_PRINTF := true, UC_FAIL_FAST := true } [TestCase1, TestCase1] []
      (by decide) (by decide)⟩

/-- C2 as stated fails: register `TestCase1` 4294967296 times.  Every function returns
true and every assertion condition is true, the runner returns true and the flag stays
false, yet the 32-bit counter has wrapped to 0 and is not N = 4294967296. -/
theorem all_pass_counter_wraps :
    (List.replicate 4294967296 TestCase1).length = 4294967296 ∧
    (∀ f ∈ List.replicate 4294967296 TestCase1,
      f.returns { USE_PRINTF := false, UC_FAIL_FAST := false } = true) ∧
    (∀ f ∈ List.replicate 4294967296 TestCase1, ∀ a ∈ f.asserts, a.condition = true) ∧
    (RunTests { USE_PRINTF := false, UC_FAIL_FAST := false }
      (List.replicate 4294967296 TestCase1)
      { g_testFunctionCount := 0, g_errorDetected := false, out := [], log := [] }).2.g_testFunctionCount
      = 0 ∧
    (RunTests { USE_PRINTF := false, UC_FAIL_FAST := false }
      (List.replicate 4294967296 TestCase1)
      { g_testFunctionCount := 0, g_errorDetected := false, out := [], log := [] }).2.g_testFunctionCount
      ≠ (List.replicate 4294967296 TestCase1).length := by
  have hcount := count_replicate { USE_PRINTF := false, UC_FAIL_FAST := false }
    4294967296 TestCase1 false [] (by decide)
  have hzero : 4294967296 % UINT32_MODULUS = 0 := by decide
  rw [hzero] at hcount
  refine ⟨List.length_replicate _ _, ?_, ?_, hcount, ?_⟩
  · intro f hf
    rw [List.eq_of_mem_replicate hf]
    decide
  · intro f hf
    rw [List.eq_of_mem_replicate hf]
    decide
  · rw [hcount, List.length_replicate]
    decide

/-- C3: the runner returns true exactly when every test function it called returned
true (the values the calls returned are read from the log of the run); its result
being a Boolean, it returns false in every other case. -/
theorem runner_true_iff_all_invoked_true (cfg : Config) (tests : List TestFunction)
    (c : Nat) (e : Bool) (o : List String) :
    (RunTests cfg tests
        { g_testFunctionCount := c, g_errorDetected := e, out := o, log := [] }).1 = true ↔
    ∀ r ∈ returnedResults (RunTests cfg tests
        { g_testFunctionCount := c, g_errorDetected := e, out := o, log := [] }).2.log,
      r = true := by
  rw [RunTests_fst, RunTests_log, List.nil_append, returnedResults_runLog, all_invoked]
  simp [List.all_eq_true]

/-- C4: one `UC_ASSERT_MSG`, for every message, condition, configuration and prior
state, leaves `g_errorDetected` equal to the old flag or-ed with the negated
condition: a false condition sets it, a true condition leaves it as it was.  The
assertion never changes `g_testFunctionCount`. -/
theorem assertion_flag_update (cfg : Config) (m : String) (c : Bool) (s : State) :
    (UC_ASSERT_MSG cfg m c s).2.g_errorDetected = (s.g_errorDetected || !c) ∧
    (UC_ASSERT_MSG cfg m false s).2.g_errorDetected = true ∧
    (UC_ASSERT_MSG cfg m true s).2.g_errorDetected = s.g_errorDetected ∧
    (UC_ASSERT_MSG cfg m c s).2.g_testFunctionCount = s.g_testFunctionCount := by
  refine ⟨assert_flag cfg m c s, ?_, ?_, assert_count cfg m c s⟩
  · rw [assert_flag]; simp
  · rw [assert_flag]; simp

/-- C5: with fail-fast enabled, a test function whose body is a false assertion, then
a true assertion, then `return ret;` returns false whatever `ret` is, and only the
first assertion is evaluated: the log gains that one assertion and nothing else, the
flag is set, and what is printed is the first message and its `[NOK]` tag only (nothing
with the no-op sink), so nothing is emitted for the second assertion. -/
theorem fail_fast_skips_second_assertion (usePrintf : Bool) (name m₁ m₂ : String)
    (ret : Bool) (s : State) :
    (TestFunction.call { USE_PRINTF := usePrintf, UC_FAIL_FAST := true }
      { name := name,
        asserts := [{ message := m₁, condition := false }, { message := m₂, condition := true }],
        ret := ret } s).1 = false ∧
    (TestFunction.call { USE_PRINTF := usePrintf, UC_FAIL_FAST := true }
      { name := name,
        asserts := [{ message := m₁, condition := false }, { message := m₂, condition := true }],
        ret := ret } s).2.log = s.log ++ [Event.assertion m₁ false] ∧
    (TestFunction.call { USE_PRINTF := usePrintf, UC_FAIL_FAST := true }
      { name := name,
        asserts := [{ message := m₁, condition := false }, { message := m₂, condition := true }],
        ret := ret } s).2.out = s.out ++ (if usePrintf then [m₁, " [NOK]\r\n"] else []) ∧
    (TestFunction.call { USE_PRINTF := usePrintf, UC_FAIL_FAST := true }
      { name := name,
        asserts := [{ message := m₁, condition := false }, { message := m₂, condition := true }],
        ret := ret } s).2.g_errorDetected = true := by
  simp only [TestFunction.call, runBody_cons]
  simp [assert_out]

/-- C6: with fail-fast disabled, a test function whose body is a false assertion, then
a true assertion, then `return ret;` evaluates both assertions in order (the log gains
both, and with the active sink both messages are printed, each followed by its tag),
the flag is true right after the first assertion and at the end, and the function
returns `ret`, which may be true. -/
theorem run_to_completion_evaluates_both (usePrintf : Bool) (name m₁ m₂ : String)
    (ret : Bool) (s : State) :
    (TestFunction.call { USE_PRINTF := usePrintf, UC_FAIL_FAST := false }
      { name := name,
        asserts := [{ message := m₁, condition := false }, { message := m₂, condition := true }],
        ret := ret } s).1 = ret ∧
    (TestFunction.call { USE_PRINTF := usePrintf, UC_FAIL_FAST := false }
      { name := name,
        asserts := [{ message := m₁, condition := false }, { message := m₂, condition := true }],
        ret := ret } s).2.log
      = s.log ++ [Event.assertion m₁ false, Event.assertion m₂ true] ∧
    (TestFunction.call { USE_PRINTF := usePrintf, UC_FAIL_FAST := false }
      { name := name,
        asserts := [{ message := m₁, condition := false }, { message := m₂, condition := true }],
        ret := ret } s).2.out
      = s.out ++ (if usePrintf then [m₁, " [NOK]\r\n", m₂, " [OK]\r\n"] else []) ∧
    (UC_ASSERT_MSG { USE_PRINTF := usePrintf, UC_FAIL_FAST := false } m₁ false s).1 = none ∧
    (UC_ASSERT_MSG { USE_PRINTF := usePrintf, UC_FAIL_FAST := false }
      m₁ false s).2.g_errorDetected = true ∧
    (TestFunction.call { USE_PRINTF := usePrintf, UC_FAIL_FAST := false }
      { name := name,
        asserts := [{ message := m₁, condition := false }, { message := m₂, condition := true }],
        ret := ret } s).2.g_errorDetected = true := by
  simp only [TestFunction.call, runBody_cons]
  cases usePrintf <;> simp [assert_out, assert_ctrl, runBody]

/-- C7: with fail-fast enabled, cut the log of any run at any evaluated assertion whose
condition is false.  No failed assertion precedes the cut, and what follows is a
single event, the enclosing test function returning false: no assertion is evaluated
and no test function is called after it.  The runner itself returns false. -/
theorem fail_fast_nothing_after_failure (usePrintf : Bool) (tests : List TestFunction)
    (c : Nat) (e : Bool) (o : List String) (pre post : List Event) (m : String)
    (hcut : (RunTests { USE_PRINTF := usePrintf, UC_FAIL_FAST := true } tests
        { g_testFunctionCount := c, g_errorDetected := e, out := o, log := [] }).2.log
      = pre ++ Event.assertion m false :: post) :
    (∃ n, post = [Event.returned n false]) ∧
    evaluatedAssertions post = [] ∧
    invokedNames post = [] ∧
    (∀ a ∈ evaluatedAssertions pre, a.condition = true) ∧
    (RunTests { USE_PRINTF := usePrintf, UC_FAIL_FAST := true } tests
        { g_testFunctionCount := c, g_errorDetected := e, out := o, log := [] }).1 = false := by
  rw [RunTests_log, List.nil_append] at hcut
  have hstop := stopsAfterFailure_run { USE_PRINTF := usePrintf, UC_FAIL_FAST := true } rfl tests
  obtain ⟨⟨n, hn⟩, hpre⟩ := stopsAfterFailure_cut _ pre post m hstop hcut
  refine ⟨⟨n, hn⟩, by rw [hn]; rfl, by rw [hn]; rfl, ?_, ?_⟩
  · intro a ha
    exact evaluated_true_of_no_failure pre hpre a ha
  · rw [RunTests_fst]
    by_contra hall
    have hnone := runLog_no_failure_of_all { USE_PRINTF := usePrintf, UC_FAIL_FAST := true }
      rfl tests (by simpa using hall)
    rw [hcut] at hnone
    simp [Event.isFailure] at hnone

/-- Witness for C7: the demo suite under fail-fast, its log cut at the false assertion
of `TestCase2`. -/
theorem fail_fast_nothing_after_failure_witness :
    (RunTests { USE_PRINTF := true, UC_FAIL_FAST := true } [TestCase1, TestCase2]
        { g_testFunctionCount := 0, g_errorDetected := false, out := [], log := [] }).2.log
      = [Event.invoke "TestCase1",
          Event.assertion "TestCase2: Detailed information ..." true,
          Event.returned "TestCase1" true,
          Event.invoke "TestCase2"] ++
        Event.assertion "TestCase2: Detailed information ..." false ::
          [Event.returned "TestCase2" false] ∧
    ((∃ n, [Event.returned "TestCase2" false] = [Event.returned n false]) ∧
    evaluatedAssertions [Event.returned "TestCase2" false] = [] ∧
    invokedNames [Event.returned "TestCase2" false] = [] ∧
    (∀ a ∈ evaluatedAssertions [Event.invoke "TestCase1",
          Event.assertion "TestCase2: Detailed information ..." true,
          Event.returned "TestCase1" true,
          Event.invoke "TestCase2"], a.condition = true) ∧
    (RunTests { USE_PRINTF := true, UC_FAIL_FAST := true } [TestCase1, TestCase2]
        { g_testFunctionCount := 0, g_errorDetected := false, out := [], log := [] }).1 = false) :=
  ⟨by decide,
    fail_fast_nothing_after_failure true [TestCase1, TestCase2] 0 false []
      [Event.invoke "TestCase1",
        Event.assertion "TestCase2: Detailed information ..." true,
        Event.returned "TestCase1" true,
        Event.invoke "TestCase2"]
      [Event.returned "TestCase2" false]
      "TestCase2: Detailed information ..." (by decide)⟩

/-- C8: `NO_ERROR_DETECTED` is always exactly the negation of `g_errorDetected`.  After
a run started with the flag false it is false precisely when some assertion evaluated
during the run had a false condition, whatever the test functions and the runner
returned: in the demo suite with fail-fast disabled both functions return true, the
runner returns true, and `NO_ERROR_DETECTED` is false. -/
theorem no_error_detected_iff_no_failed_assertion (cfg : Config)
    (tests : List TestFunction) (c : Nat) (o : List String) (usePrintf : Bool) :
    (∀ s : State, NO_ERROR_DETECTED s = !s.g_errorDetected) ∧
    (NO_ERROR_DETECTED (RunTests cfg tests
        { g_testFunctionCount := c, g_errorDetected := false, out := o, log := [] }).2 = false ↔
      ∃ a ∈ evaluatedAssertions (RunTests cfg tests
        { g_testFunctionCount := c, g_errorDetected := false, out := o, log := [] }).2.log,
        a.condition = false) ∧
    ((RunTests { USE_PRINTF := usePrintf, UC_FAIL_FAST := false } [TestCase1, TestCase2]
        initialState).1 = true ∧
      returnedResults (RunTests { USE_PRINTF := usePrintf, UC_FAIL_FAST := false }
        [TestCase1, TestCase2] initialState).2.log = [true, true] ∧
      NO_ERROR_DETECTED (RunTests { USE_PRINTF := usePrintf, UC_FAIL_FAST := false }
        [TestCase1, TestCase2] initialState).2 = false) := by
  refine ⟨fun s => rfl, ?_, ?_⟩
  · rw [NO_ERROR_DETECTED, RunTests_flag, RunTests_log, List.nil_append]
    constructor
    · intro h
      by_contra hne
      have hall : ∀ a ∈ evaluatedAssertions (runLog cfg tests), a.condition = true := by
        intro a ha
        by_contra hc
        exact hne ⟨a, ha, by simpa using hc⟩
      rw [no_failure_of_evaluated_true _ hall] at h
      simp at h
    · rintro ⟨a, ha, hc⟩
      rw [failure_of_evaluated_false _ a ha hc]
      rfl
  · cases usePrintf <;> decide

/-- C9: `g_errorDetected` is monotonic.  From a state in which the flag is true, every
operation leaves it true: a message emission, an assertion with any condition under
either fail-fast setting, a call of a test function, a runner step
`EXECUTE_TEST_CASE`, and a whole run; `NO_ERROR_DETECTED` only reads the flag (it
yields false there). -/
theorem failure_flag_monotonic (cfg : Config) (m : String) (c : Bool) (f : TestFunction)
    (tests : List TestFunction) (s : State) (h : s.g_errorDetected = true) :
    (UC_PRINTF_FUNCTION cfg m s).g_errorDetected = true ∧
    (UC_ASSERT_MSG cfg m c s).2.g_errorDetected = true ∧
    (f.call cfg s).2.g_errorDetected = true ∧
    (EXECUTE_TEST_CASE cfg f s).2.g_errorDetected = true ∧
    (RunTests cfg tests s).2.g_errorDetected = true ∧
    NO_ERROR_DETECTED s = false := by
  refine ⟨?_, ?_, call_flag_mono cfg f s h, ?_, ?_, ?_⟩
  · rw [printf_flag, h]
  · rw [assert_flag, h]; rfl
  · rw [step_flag, h]; rfl
  · rw [RunTests_flag, h]; rfl
  · rw [NO_ERROR_DETECTED, h]; rfl

/-- Witness for C9: the state the demo suite ends in (flag set), to which a passing
assertion, `TestCase1` and the whole demo suite are applied again. -/
theorem failure_flag_monotonic_witness :
    ({ g_testFunctionCount := 2, g_errorDetected := true, out := [], log := [] } :
      State).g_errorDetected = true ∧
    ((UC_PRINTF_FUNCTION { USE_PRINTF := true, UC_FAIL_FAST := false } "ok"
        { g_testFunctionCount := 2, g_errorDetected := true, out := [], log := [] }).g_errorDetected
      = true ∧
    (UC_ASSERT_MSG { USE_PRINTF := true, UC_FAIL_FAST := false } "ok" true
        { g_testFunctionCount := 2, g_errorDetected := true, out := [], log := [] }).2.g_errorDetected
      = true ∧
    (TestCase1.call { USE_PRINTF := true, UC_FAIL_FAST := false }
        { g_testFunctionCount := 2, g_errorDetected := true, out := [], log := [] }).2.g_errorDetected
      = true ∧
    (EXECUTE_TEST_CASE { USE_PRINTF := true, UC_FAIL_FAST := false } TestCase1
        { g_testFunctionCount := 2, g_errorDetected := true, out := [], log := [] }).2.g_errorDetected
      = true ∧
    (RunTests { USE_PRINTF := true, UC_FAIL_FAST := false } [TestCase1, TestCase2]
        { g_testFunctionCount := 2, g_errorDetected := true, out := [], log := [] }).2.g_errorDetected
      = true ∧
    NO_ERROR_DETECTED
        { g_testFunctionCount := 2, g_errorDetected := true, out := [], log := [] } = false) :=
  ⟨rfl,
    failure_flag_monotonic { USE_PRINTF := true, UC_FAIL_FAST := false } "ok" true TestCase1
      [TestCase1, TestCase2]
      { g_testFunctionCount := 2, g_errorDetected := true, out := [], log := [] } rfl⟩

/-- C10 (as amended): a runner step sets `g_testFunctionCount` to the old value plus
one modulo 2^32, so the counter grows by exactly one at every step except the step
from 4294967295, which wraps to 0.  The increment comes before the call: the value the
counter has at the moment the test function is called is the incremented one.  The
call itself, assertions, message emissions and the driver's own `printf` leave the
counter alone.  Hence for every run of fewer than 2^32 registered functions started
from 0 the final counter equals the number of test functions actually called, which
is at most the number registered; and for every run that cannot overflow (start value
plus number registered below 2^32) the counter never decreases: it ends at the start
value plus the number of functions called, and the calls see the successive values
after the start value. -/
theorem execution_counter_counts_invocations (cfg : Config) (f : TestFunction)
    (m : String) (c : Bool) (tests : List TestFunction) (s : State) (e : Bool)
    (o : List String) (n : Nat) :
    (EXECUTE_TEST_CASE cfg f s).2.g_testFunctionCount
      = (s.g_testFunctionCount + 1) % UINT32_MODULUS ∧
    (s.g_testFunctionCount + 1 < UINT32_MODULUS →
      (EXECUTE_TEST_CASE cfg f s).2.g_testFunctionCount = s.g_testFunctionCount + 1) ∧
    (f.call cfg s).2.g_testFunctionCount = s.g_testFunctionCount ∧
    (UC_ASSERT_MSG cfg m c s).2.g_testFunctionCount = s.g_testFunctionCount ∧
    (UC_PRINTF_FUNCTION cfg m s).g_testFunctionCount = s.g_testFunctionCount ∧
    (tests.length < UINT32_MODULUS →
      (RunTests cfg tests
          { g_testFunctionCount := 0, g_errorDetected := e, out := o, log := [] }).2.g_testFunctionCount
        = (invokedNames (RunTests cfg tests
          { g_testFunctionCount := 0, g_errorDetected := e, out := o, log := [] }).2.log).length ∧
      (RunTests cfg tests
          { g_testFunctionCount := 0, g_errorDetected := e, out := o, log := [] }).2.g_testFunctionCount
        ≤ tests.length) ∧
    (EXECUTE_TEST_CASE cfg f s).2.counterAtCall
      = s.counterAtCall ++ [(s.g_testFunctionCount + 1) % UINT32_MODULUS] ∧
    (printf m s).g_testFunctionCount = s.g_testFunctionCount ∧
    (n + tests.length < UINT32_MODULUS →
      (RunTests cfg tests
          { g_testFunctionCount := n, g_errorDetected := e, out := o, log := [] }).2.g_testFunctionCount
        = n + (invokedNames (RunTests cfg tests
          { g_testFunctionCount := n, g_errorDetected := e, out := o, log := [] }).2.log).length ∧
      n ≤ (RunTests cfg tests
          { g_testFunctionCount := n, g_errorDetected := e, out := o,
            log := [] }).2.g_testFunctionCount ∧
      (RunTests cfg tests
          { g_testFunctionCount := n, g_errorDetected := e, out := o, log := [] }).2.counterAtCall
        = List.range' (n + 1) (invokedNames (RunTests cfg tests
          { g_testFunctionCount := n, g_errorDetected := e, out := o, log := [] }).2.log).length) := by
  refine ⟨step_count cfg f s, ?_, call_count cfg f s, assert_count cfg m c s,
    printf_count cfg m s, ?_, step_counterAtCall cfg f s, rfl, ?_⟩
  · intro hlt
    rw [step_count, Nat.mod_eq_of_lt hlt]
  · intro hlt
    have hle := invokedFunctions_length_le cfg tests
    have hcount := RunTests_count cfg tests
      { g_testFunctionCount := 0, g_errorDetected := e, out := o, log := [] } modulus_pos
    simp only [Nat.zero_add] at hcount
    rw [Nat.mod_eq_of_lt (Nat.lt_of_le_of_lt hle hlt)] at hcount
    rw [hcount, RunTests_log, List.nil_append, invokedNames_runLog, List.length_map]
    exact ⟨rfl, hle⟩
  · intro hlt
    have hle := invokedFunctions_length_le cfg tests
    have hn : n < UINT32_MODULUS := by omega
    have hcount := RunTests_count cfg tests
      { g_testFunctionCount := n, g_errorDetected := e, out := o, log := [] } hn
    rw [Nat.mod_eq_of_lt (show n + (invokedFunctions cfg tests).length < UINT32_MODULUS by
      omega)] at hcount
    have hlen : (invokedNames (RunTests cfg tests
          { g_testFunctionCount := n, g_errorDetected := e, out := o, log := [] }).2.log).length
        = (invokedFunctions cfg tests).length := by
      rw [RunTests_log, List.nil_append, invokedNames_runLog, List.length_map]
    rw [hlen, hcount]
    refine ⟨rfl, Nat.le_add_right _ _, ?_⟩
    rw [RunTests_counterAtCall]
    show [] ++ List.iterate incrementCounter (incrementCounter n)
        (invokedFunctions cfg tests).length = _
    rw [List.nil_append]
    rcases Nat.eq_zero_or_pos (invokedFunctions cfg tests).length with hz | hpos
    · rw [hz]; rfl
    · have hinc : incrementCounter n = n + 1 :=
        Nat.mod_eq_of_lt (show n + 1 < UINT32_MODULUS by omega)
      rw [hinc]
      exact iterate_incrementCounter _ _ (by omega)

/-- Witness for C10: one step from a counter of 5, the demo suite with a third
registration run under fail-fast from 0, where two of the three functions are called,
and the same run from a counter of 5. -/
theorem execution_counter_counts_invocations_witness :
    ((5 + 1 < UINT32_MODULUS) ∧ [TestCase1, TestCase2, TestCase1].length < UINT32_MODULUS ∧
      5 + [TestCase1, TestCase2, TestCase1].length < UINT32_MODULUS) ∧
    (EXECUTE_TEST_CASE { USE_PRINTF := true, UC_FAIL_FAST := true } TestCase1
        { g_testFunctionCount := 5, g_errorDetected := false, out := [], log := [] }).2.g_testFunctionCount
      = 5 + 1 ∧
    ((RunTests { USE_PRINTF := true, UC_FAIL_FAST := true } [TestCase1, TestCase2, TestCase1]
        { g_testFunctionCount := 0, g_errorDetected := false, out := [], log := [] }).2.g_testFunctionCount
      = (invokedNames (RunTests { USE_PRINTF := true, UC_FAIL_FAST := true }
          [TestCase1, TestCase2, TestCase1]
          { g_testFunctionCount := 0, g_errorDetected := false, out := [], log := [] }).2.log).length ∧
    (RunTests { USE_PRINTF := true, UC_FAIL_FAST := true } [TestCase1, TestCase2, TestCase1]
        { g_testFunctionCount := 0, g_errorDetected := false, out := [], log := [] }).2.g_testFunctionCount
      ≤ [TestCase1, TestCase2, TestCase1].length) ∧
    ((RunTests { USE_PRINTF := true, UC_FAIL_FAST := true } [TestCase1, TestCase2, TestCase1]
        { g_testFunctionCount := 5, g_errorDetected := false, out := [], log := [] }).2.g_testFunctionCount
      = 5 + (invokedNames (RunTests { USE_PRINTF := true, UC_FAIL_FAST := true }
          [TestCase1, TestCase2, TestCase1]
          { g_testFunctionCount := 5, g_errorDetected := false, out := [], log := [] }).2.log).length ∧
    5 ≤ (RunTests { USE_PRINTF := true, UC_FAIL_FAST := true } [TestCase1, TestCase2, TestCase1]
        { g_testFunctionCount := 5, g_errorDetected := false, out := [],
          log := [] }).2.g_testFunctionCount ∧
    (RunTests { USE_PRINTF := true, UC_FAIL_FAST := true } [TestCase1, TestCase2, TestCase1]
        { g_testFunctionCount := 5, g_errorDetected := false, out := [], log := [] }).2.counterAtCall
      = List.range' (5 + 1) (invokedNames (RunTests { USE_PRINTF := true, UC_FAIL_FAST := true }
          [TestCase1, TestCase2, TestCase1]
          { g_testFunctionCount := 5, g_errorDetected := false, out := [], log := [] }).2.log).length) :=
  ⟨⟨by decide, by decide, by decide⟩,
    (execution_counter_counts_invocations { USE_PRINTF := true, UC_FAIL_FAST := true }
      TestCase1 "ok" true [TestCase1, TestCase2, TestCase1]
      { g_testFunctionCount := 5, g_errorDetected := false, out := [], log := [] }
      false [] 5).2.1 (by decide),
    (execution_counter_counts_invocations { USE_PRINTF := true, UC_FAIL_FAST := true }
      TestCase1 "ok" true [TestCase1, TestCase2, TestCase1]
      { g_testFunctionCount := 5, g_errorDetected := false, out := [], log := [] }
      false [] 5).2.2.2.2.2.1 (by decide),
    (execution_counter_counts_invocations { USE_PRINTF := true, UC_FAIL_FAST := true }
      TestCase1 "ok" true [TestCase1, TestCase2, TestCase1]
      { g_testFunctionCount := 5, g_errorDetected := false, out := [], log := [] }
      false [] 5).2.2.2.2.2.2.2.2 (by decide)⟩

/-- C10 as stated fails: the counter does not only increase, and a step does not always
add exactly one.  `EXECUTE_TEST_CASE(TestCase1)` from a counter of 4294967295 leaves the
counter at 0, which is smaller than before and is not 4294967296.  That start value is
the one a run over 4294967295 registrations of `TestCase1` reaches from 0; with one
more registration the run ends at 0. -/
theorem execution_counter_decreases_at_wrap :
    (EXECUTE_TEST_CASE { USE_PRINTF := false, UC_FAIL_FAST := false } TestCase1
        { g_testFunctionCount := 4294967295, g_errorDetected := false, out := [],
          log := [] }).2.g_testFunctionCount = 0 ∧
    (EXECUTE_TEST_CASE { USE_PRINTF := false, UC_FAIL_FAST := false } TestCase1
        { g_testFunctionCount := 4294967295, g_errorDetected := false, out := [],
          log := [] }).2.g_testFunctionCount < 4294967295 ∧
    (EXECUTE_TEST_CASE { USE_PRINTF := false, UC_FAIL_FAST := false } TestCase1
        { g_testFunctionCount := 4294967295, g_errorDetected := false, out := [],
          log := [] }).2.g_testFunctionCount ≠ 4294967295 + 1 ∧
    (RunTests { USE_PRINTF := false, UC_FAIL_FAST := false }
        (List.replicate 4294967295 TestCase1)
        { g_testFunctionCount := 0, g_errorDetected := false, out := [],
          log := [] }).2.g_testFunctionCount = 4294967295 ∧
    (RunTests { USE_PRINTF := false, UC_FAIL_FAST := false }
        (List.replicate 4294967296 TestCase1)
        { g_testFunctionCount := 0, g_errorDetected := false, out := [],
          log := [] }).2.g_testFunctionCount = 0 := by
  have hstep := step_count { USE_PRINTF := false, UC_FAIL_FAST := false } TestCase1
    { g_testFunctionCount := 4294967295, g_errorDetected := false, out := [], log := [] }
  have hzero : (4294967295 + 1) % UINT32_MODULUS = 0 := by decide
  simp only [hzero] at hstep
  have hbefore := count_replicate { USE_PRINTF := false, UC_FAIL_FAST := false }
    4294967295 TestCase1 false [] (by decide)
  have hafter := count_replicate { USE_PRINTF := false, UC_FAIL_FAST := false }
    4294967296 TestCase1 false [] (by decide)
  rw [show 4294967295 % UINT32_MODULUS = 4294967295 from by decide] at hbefore
  rw [show 4294967296 % UINT32_MODULUS = 0 from by decide] at hafter
  refine ⟨hstep, ?_, ?_, hbefore, hafter⟩
  · rw [hstep]; decide
  · rw [hstep]; decide

/-- C11: the demo suite (`TestCase1`, `TestCase2`) run with fail-fast disabled from the
initial state, with either message sink: the counter ends at 2, the flag ends true,
the runner returns true, `NO_ERROR_DETECTED` is false, and the driver prints
"Error detected." and then "Executed 2 test functions." after whatever the run itself
printed (nothing with the no-op sink), and exits with 0. -/
theorem demo_suite_run_to_completion (usePrintf : Bool) :
    (RunTests { USE_PRINTF := usePrintf, UC_FAIL_FAST := false } [TestCase1, TestCase2]
      initialState).2.g_testFunctionCount = 2 ∧
    (RunTests { USE_PRINTF := usePrintf, UC_FAIL_FAST := false } [TestCase1, TestCase2]
      initialState).2.g_errorDetected = true ∧
    (RunTests { USE_PRINTF := usePrintf, UC_FAIL_FAST := false } [TestCase1, TestCase2]
      initialState).1 = true ∧
    NO_ERROR_DETECTED (RunTests { USE_PRINTF := usePrintf, UC_FAIL_FAST := false }
      [TestCase1, TestCase2] initialState).2 = false ∧
    (main { USE_PRINTF := usePrintf, UC_FAIL_FAST := false } [TestCase1, TestCase2]
      initialState).2.out =
      (RunTests { USE_PRINTF := usePrintf, UC_FAIL_FAST := false } [TestCase1, TestCase2]
        initialState).2.out ++ ["Error detected.\n", "Executed 2 test functions.\n"] ∧
    (main { USE_PRINTF := false, UC_FAIL_FAST := false } [TestCase1, TestCase2]
      initialState).2.out = ["Error detected.\n", "Executed 2 test functions.\n"] ∧
    (main { USE_PRINTF := usePrintf, UC_FAIL_FAST := false } [TestCase1, TestCase2]
      initialState).1 = 0 := by
  cases usePrintf <;> decide

/-- C14: the message sink has no influence on the state.  For every registration list,
fail-fast setting and start state, the run with the active sink and the run with the
no-op sink agree on the runner's return value, the final `g_testFunctionCount`, the
final `g_errorDetected` and the whole log (so on the functions called), and the no-op
run leaves the output as it was.  An emission changes neither global, and an
assertion changes nothing but the flag, which it sets on a false condition. -/
theorem sink_does_not_change_state (ff : Bool) (tests : List TestFunction) (s : State)
    (cfg : Config) (m : String) (c : Bool) :
    (RunTests { USE_PRINTF := true, UC_FAIL_FAST := ff } tests s).1
      = (RunTests { USE_PRINTF := false, UC_FAIL_FAST := ff } tests s).1 ∧
    (RunTests { USE_PRINTF := true, UC_FAIL_FAST := ff } tests s).2.g_testFunctionCount
      = (RunTests { USE_PRINTF := false, UC_FAIL_FAST := ff } tests s).2.g_testFunctionCount ∧
    (RunTests { USE_PRINTF := true, UC_FAIL_FAST := ff } tests s).2.g_errorDetected
      = (RunTests { USE_PRINTF := false, UC_FAIL_FAST := ff } tests s).2.g_errorDetected ∧
    (RunTests { USE_PRINTF := true, UC_FAIL_FAST := ff } tests s).2.log
      = (RunTests { USE_PRINTF := false, UC_FAIL_FAST := ff } tests s).2.log ∧
    invokedNames (RunTests { USE_PRINTF := true, UC_FAIL_FAST := ff } tests s).2.log
      = invokedNames (RunTests { USE_PRINTF := false, UC_FAIL_FAST := ff } tests s).2.log ∧
    (RunTests { USE_PRINTF := false, UC_FAIL_FAST := ff } tests s).2.out = s.out ∧
    (UC_PRINTF_FUNCTION cfg m s).g_testFunctionCount = s.g_testFunctionCount ∧
    (UC_PRINTF_FUNCTION cfg m s).g_errorDetected = s.g_errorDetected ∧
    (UC_ASSERT_MSG cfg m c s).2.g_testFunctionCount = s.g_testFunctionCount ∧
    (UC_ASSERT_MSG cfg m c s).2.g_errorDetected = (s.g_errorDetected || !c) ∧
    (UC_ASSERT_MSG { USE_PRINTF := false, UC_FAIL_FAST := ff } m c s).2.out = s.out := by
  have hlog := runLog_congr { USE_PRINTF := true, UC_FAIL_FAST := ff }
    { USE_PRINTF := false, UC_FAIL_FAST := ff } rfl tests
  have hinv := invokedFunctions_congr { USE_PRINTF := true, UC_FAIL_FAST := ff }
    { USE_PRINTF := false, UC_FAIL_FAST := ff } rfl tests
  have hret : (fun f : TestFunction => f.returns { USE_PRINTF := true, UC_FAIL_FAST := ff })
      = (fun f : TestFunction => f.returns { USE_PRINTF := false, UC_FAIL_FAST := ff }) :=
    funext (returns_congr _ _ rfl)
  refine ⟨?_, ?_, ?_, ?_, ?_, ?_, printf_count cfg m s, printf_flag cfg m s,
    assert_count cfg m c s, assert_flag cfg m c s, ?_⟩
  · rw [RunTests_fst, RunTests_fst, hret]
  · rw [RunTests_count_iterate, RunTests_count_iterate, hinv]
  · rw [RunTests_flag, RunTests_flag, hlog]
  · rw [RunTests_log, RunTests_log, hlog]
  · rw [RunTests_log, RunTests_log, hlog]
  · rw [RunTests_out]; simp
  · rw [assert_out]; simp

/-- C15: for every registration list, configuration and start state the driver prints,
after the output of the run, "All test cases successfully passed." exactly when the
runner returned true and `g_errorDetected` is false after the run and "Error detected."
otherwise, then "Executed N test functions." with N the final `g_testFunctionCount` in
decimal; it prints nothing else, leaves both globals as the run left them, and its
exit code is 0. -/
theorem driver_report (cfg : Config) (tests : List TestFunction) (s : State) :
    (main cfg tests s).2.out =
      (RunTests cfg tests s).2.out ++
        [if (RunTests cfg tests s).1 = true ∧ (RunTests cfg tests s).2.g_errorDetected = false
          then "All test cases successfully passed.\n" else "Error detected.\n",
         "Executed " ++ toString (RunTests cfg tests s).2.g_testFunctionCount
            ++ " test functions.\n"] ∧
    (main cfg tests s).2.g_testFunctionCount = (RunTests cfg tests s).2.g_testFunctionCount ∧
    (main cfg tests s).2.g_errorDetected = (RunTests cfg tests s).2.g_errorDetected ∧
    (main cfg tests s).1 = 0 := by
  unfold main NO_ERROR_DETECTED printf
  generalize RunTests cfg tests s = r
  obtain ⟨b, t⟩ := r
  cases b <;> cases h : t.g_errorDetected <;> simp [h]

/-- C17: with the active message sink, an assertion hands its message and then its tag
(`[OK]` for a true condition, `[NOK]` for a false one) to the sink; a runner step
hands over, after everything the called function emitted, the name of the function
and then the tag of what it returned; and the output of a whole run is, event by
event of its log, exactly these emissions, under either fail-fast setting. -/
theorem emitted_output_shape (ff : Bool) (m : String) (c : Bool) (f : TestFunction)
    (tests : List TestFunction) (s : State) (n : Nat) (e : Bool) (o : List String) :
    (UC_ASSERT_MSG { USE_PRINTF := true, UC_FAIL_FAST := ff } m c s).2.out
      = s.out ++ [m, if c then " [OK]\r\n" else " [NOK]\r\n"] ∧
    (EXECUTE_TEST_CASE { USE_PRINTF := true, UC_FAIL_FAST := ff } f s).2.out
      = (f.call { USE_PRINTF := true, UC_FAIL_FAST := ff } s).2.out ++
        [f.name,
          if (f.call { USE_PRINTF := true, UC_FAIL_FAST := ff } s).1 then "\t[OK]\r\n"
          else "\t[NOK]\r\n"] ∧
    (RunTests { USE_PRINTF := true, UC_FAIL_FAST := ff } tests
        { g_testFunctionCount := n, g_errorDetected := e, out := o, log := [] }).2.out
      = o ++ emittedOf (RunTests { USE_PRINTF := true, UC_FAIL_FAST := ff } tests
        { g_testFunctionCount := n, g_errorDetected := e, out := o, log := [] }).2.log := by
  refine ⟨?_, ?_, ?_⟩
  · rw [assert_out]; simp
  · rw [step_out, call_fst, TestFunction.call, runBody_out]
    simp [stepLog, emittedOf, emittedOf_append, Event.emitted]
  · rw [RunTests_out, RunTests_log]
    simp

/-- C12 (as amended): with fail-fast enabled the run stops directly after the first
failed assertion: wherever its log is cut at a false assertion, only the return of
false of the enclosing test function follows, and the runner returns false.  With
fail-fast disabled no assertion outcome stops the run: if the `return` statement of
every registered function gives true, the runner returns true, every registered
function is called, in order, and `g_testFunctionCount`, started from 0, ends at the
number registered modulo 2^32, which is that number whenever it is below 2^32. -/
theorem fail_fast_switch (usePrintf : Bool) (tests : List TestFunction) (e : Bool)
    (o : List String) :
    (∀ (pre post : List Event) (m : String),
      (RunTests { USE_PRINTF := usePrintf, UC_FAIL_FAST := true } tests
          { g_testFunctionCount := 0, g_errorDetected := e, out := o, log := [] }).2.log
        = pre ++ Event.assertion m false :: post →
      (∃ n, post = [Event.returned n false]) ∧
      (RunTests { USE_PRINTF := usePrintf, UC_FAIL_FAST := true } tests
          { g_testFunctionCount := 0, g_errorDetected := e, out := o, log := [] }).1 = false) ∧
    ((∀ f ∈ tests, f.ret = true) →
      (RunTests { USE_PRINTF := usePrintf, UC_FAIL_FAST := false } tests
          { g_testFunctionCount := 0, g_errorDetected := e, out := o, log := [] }).1 = true ∧
      invokedNames (RunTests { USE_PRINTF := usePrintf, UC_FAIL_FAST := false } tests
          { g_testFunctionCount := 0, g_errorDetected := e, out := o, log := [] }).2.log
        = tests.map (fun f => f.name) ∧
      (RunTests { USE_PRINTF := usePrintf, UC_FAIL_FAST := false } tests
          { g_testFunctionCount := 0, g_errorDetected := e, out := o,
            log := [] }).2.g_testFunctionCount
        = tests.length % UINT32_MODULUS ∧
      (tests.length < UINT32_MODULUS →
        (RunTests { USE_PRINTF := usePrintf, UC_FAIL_FAST := false } tests
          { g_testFunctionCount := 0, g_errorDetected := e, out := o,
            log := [] }).2.g_testFunctionCount
        = tests.length)) := by
  constructor
  · intro pre post m hcut
    rw [RunTests_log, List.nil_append] at hcut
    have hstop := stopsAfterFailure_run { USE_PRINTF := usePrintf, UC_FAIL_FAST := true }
      rfl tests
    refine ⟨(stopsAfterFailure_cut _ pre post m hstop hcut).1, ?_⟩
    rw [RunTests_fst]
    by_contra hall
    have hnone := runLog_no_failure_of_all { USE_PRINTF := usePrintf, UC_FAIL_FAST := true }
      rfl tests (by simpa using hall)
    rw [hcut] at hnone
    simp [Event.isFailure] at hnone
  · intro hret
    have hreturns : ∀ f ∈ tests,
        f.returns { USE_PRINTF := usePrintf, UC_FAIL_FAST := false } = true := by
      intro f hf
      rw [returns_of_not_fail_fast _ rfl, hret f hf]
    have hinv := invokedFunctions_all _ tests hreturns
    have hcount := RunTests_count { USE_PRINTF := usePrintf, UC_FAIL_FAST := false } tests
      { g_testFunctionCount := 0, g_errorDetected := e, out := o, log := [] } modulus_pos
    rw [hinv] at hcount
    simp only [Nat.zero_add] at hcount
    refine ⟨?_, ?_, hcount, ?_⟩
    · rw [RunTests_fst, List.all_eq_true]
      exact hreturns
    · rw [RunTests_log, List.nil_append, invokedNames_runLog, hinv]
    · intro hlt
      rw [hcount, Nat.mod_eq_of_lt hlt]

/-- Witness for C12: the demo suite, whose two functions both end in `return true;`,
run with fail-fast disabled. -/
theorem fail_fast_switch_witness :
    (∀ f ∈ [TestCase1, TestCase2], f.ret = true) ∧
    ((RunTests { USE_PRINTF := true, UC_FAIL_FAST := false } [TestCase1, TestCase2]
          { g_testFunctionCount := 0, g_errorDetected := false, out := [], log := [] }).1 = true ∧
      invokedNames (RunTests { USE_PRINTF := true, UC_FAIL_FAST := false }
          [TestCase1, TestCase2]
          { g_testFunctionCount := 0, g_errorDetected := false, out := [], log := [] }).2.log
        = [TestCase1, TestCase2].map (fun f => f.name) ∧
      (RunTests { USE_PRINTF := true, UC_FAIL_FAST := false } [TestCase1, TestCase2]
          { g_testFunctionCount := 0, g_errorDetected := false, out := [],
            log := [] }).2.g_testFunctionCount
        = [TestCase1, TestCase2].length % UINT32_MODULUS ∧
      ([TestCase1, TestCase2].length < UINT32_MODULUS →
        (RunTests { USE_PRINTF := true, UC_FAIL_FAST := false } [TestCase1, TestCase2]
          { g_testFunctionCount := 0, g_errorDetected := false, out := [],
            log := [] }).2.g_testFunctionCount
        = [TestCase1, TestCase2].length)) :=
  ⟨by decide, (fail_fast_switch true [TestCase1, TestCase2] false []).2 (by decide)⟩

/-- C12 as stated fails: with fail-fast disabled, register a function that ends in
`return false;` and then `TestCase1`.  Only the first is called and the counter ends
at 1, not at the 2 registered.  And with `TestCase1` registered 4294967296 times every
function is called but the 32-bit counter has wrapped to 0. -/
theorem run_to_completion_stops_on_false_return :
    invokedNames (RunTests { USE_PRINTF := false, UC_FAIL_FAST := false }
        [failingTest, TestCase1]
        { g_testFunctionCount := 0, g_errorDetected := false, out := [], log := [] }).2.log
      = ["TestCase3"] ∧
    (RunTests { USE_PRINTF := false, UC_FAIL_FAST := false } [failingTest, TestCase1]
        { g_testFunctionCount := 0, g_errorDetected := false, out := [],
          log := [] }).2.g_testFunctionCount = 1 ∧
    (RunTests { USE_PRINTF := false, UC_FAIL_FAST := false } [failingTest, TestCase1]
        { g_testFunctionCount := 0, g_errorDetected := false, out := [],
          log := [] }).2.g_testFunctionCount ≠ [failingTest, TestCase1].length ∧
    (RunTests { USE_PRINTF := false, UC_FAIL_FAST := false }
        (List.replicate 4294967296 TestCase1)
        { g_testFunctionCount := 0, g_errorDetected := false, out := [],
          log := [] }).2.g_testFunctionCount = 0 ∧
    (List.replicate 4294967296 TestCase1).length = 4294967296 := by
  have hcount := count_replicate { USE_PRINTF := false, UC_FAIL_FAST := false }
    4294967296 TestCase1 false [] (by decide)
  have hzero : 4294967296 % UINT32_MODULUS = 0 := by decide
  rw [hzero] at hcount
  exact ⟨by decide, by decide, by decide, hcount, List.length_replicate _ _⟩

/-- C13 (as amended): `EXECUTE_TEST_CASE` makes the enclosing runner return false
exactly when the test function it calls returns false; otherwise it falls through and
the runner goes on with the next registered function.  With fail-fast enabled the
function returns false as soon as an assertion inside it fails (it returns true only
if every condition is true and its `return` gives true); with fail-fast disabled it
returns what its `return` statement gives, whatever its assertions did. -/
theorem execute_test_case_outcome (cfg : Config) (usePrintf : Bool) (f : TestFunction)
    (rest : List TestFunction) (s : State) :
    (EXECUTE_TEST_CASE cfg f s).1 = (if f.returns cfg then none else some false) ∧
    RunTests cfg (f :: rest) s =
      (if f.returns cfg then RunTests cfg rest (EXECUTE_TEST_CASE cfg f s).2
       else (false, (EXECUTE_TEST_CASE cfg f s).2)) ∧
    f.returns { USE_PRINTF := usePrintf, UC_FAIL_FAST := true }
      = (f.asserts.all (fun a => a.condition) && f.ret) ∧
    f.returns { USE_PRINTF := usePrintf, UC_FAIL_FAST := false } = f.ret := by
  refine ⟨step_ctrl cfg f s, RunTests_cons cfg f rest s, ?_,
    returns_of_not_fail_fast _ rfl f⟩
  rw [returns_eq]
  cases h : f.asserts.any (fun a => !a.condition)
  · have hall : f.asserts.all (fun a => a.condition) = true := by
      rw [List.all_eq_true]
      intro a ha
      rw [List.any_eq_false] at h
      simpa using h a ha
    simp [hall]
  · have hall : f.asserts.all (fun a => a.condition) = false := by
      rw [List.any_eq_true] at h
      obtain ⟨a, ha, hc⟩ := h
      rw [List.all_eq_false]
      exact ⟨a, ha, by simpa using hc⟩
    simp [hall]

/-- C13 as stated fails: with fail-fast disabled, `EXECUTE_TEST_CASE(TestCase2)` from
the initial state evaluates an assertion that fails (the flag is set), yet the step
falls through and a runner made of this step returns true. -/
theorem failed_assertion_does_not_stop_runner :
    (∃ a ∈ evaluatedAssertions (EXECUTE_TEST_CASE { USE_PRINTF := true, UC_FAIL_FAST := false }
        TestCase2 initialState).2.log, a.condition = false) ∧
    (EXECUTE_TEST_CASE { USE_PRINTF := true, UC_FAIL_FAST := false }
        TestCase2 initialState).2.g_errorDetected = true ∧
    (EXECUTE_TEST_CASE { USE_PRINTF := true, UC_FAIL_FAST := false }
        TestCase2 initialState).1 = none ∧
    (RunTests { USE_PRINTF := true, UC_FAIL_FAST := false } [TestCase2] initialState).1
      = true :=
  ⟨⟨{ message := "TestCase2: Detailed information ...", condition := false },
      by decide, rfl⟩, by decide, by decide, by decide⟩

/-- C16: for every registration list, configuration and start values of the globals,
the functions the runner calls are, in registration order and once each, the
registered functions that return true up to the first one that returns false,
followed by that one (all of them if none returns false); this is an initial segment
of the registration list, and the counter is incremented once per function of it. -/
theorem invoked_sequence_is_registered_segment (cfg : Config) (tests : List TestFunction)
    (c : Nat) (e : Bool) (o : List String) :
    invokedNames (RunTests cfg tests
        { g_testFunctionCount := c, g_errorDetected := e, out := o, log := [] }).2.log
      = (tests.takeWhile (fun f => f.returns cfg) ++
          (tests.dropWhile (fun f => f.returns cfg)).take 1).map (fun f => f.name) ∧
    returnedResults (RunTests cfg tests
        { g_testFunctionCount := c, g_errorDetected := e, out := o, log := [] }).2.log
      = (tests.takeWhile (fun f => f.returns cfg) ++
          (tests.dropWhile (fun f => f.returns cfg)).take 1).map (fun f => f.returns cfg) ∧
    tests.takeWhile (fun f => f.returns cfg) ++
        (tests.dropWhile (fun f => f.returns cfg)).take 1
      = tests.take (invokedNames (RunTests cfg tests
        { g_testFunctionCount := c, g_errorDetected := e, out := o, log := [] }).2.log).length ∧
    (RunTests cfg tests
        { g_testFunctionCount := c, g_errorDetected := e, out := o,
          log := [] }).2.g_testFunctionCount
      = incrementCounter^[(invokedNames (RunTests cfg tests
        { g_testFunctionCount := c, g_errorDetected := e, out := o, log := [] }).2.log).length]
          c := by
  have hlen : (invokedNames (RunTests cfg tests
        { g_testFunctionCount := c, g_errorDetected := e, out := o, log := [] }).2.log).length
      = (invokedFunctions cfg tests).length := by
    rw [RunTests_log, List.nil_append, invokedNames_runLog, List.length_map]
  refine ⟨?_, ?_, ?_, ?_⟩
  · rw [RunTests_log, List.nil_append, invokedNames_runLog, invokedFunctions_eq_takeWhile]
  · rw [RunTests_log, List.nil_append, returnedResults_runLog, invokedFunctions_eq_takeWhile]
  · rw [hlen, ← invokedFunctions_eq_takeWhile]
    exact invokedFunctions_eq_take cfg tests
  · rw [hlen]
    exact RunTests_count_iterate cfg tests _

/-- C18: with fail-fast enabled and `g_errorDetected` initially false, for every
registration list, if the runner returns true then the flag is false at the end of
the run.  So the condition `RunTests() && NO_ERROR_DETECTED` of the driver has the
value of `RunTests()` alone, and the driver prints "All test cases successfully
passed." exactly when the runner returned true. -/
theorem fail_fast_runner_true_means_no_error (usePrintf : Bool) (tests : List TestFunction)
    (c : Nat) (o : List String) :
    ((RunTests { USE_PRINTF := usePrintf, UC_FAIL_FAST := true } tests
        { g_testFunctionCount := c, g_errorDetected := false, out := o, log := [] }).1 = true →
      (RunTests { USE_PRINTF := usePrintf, UC_FAIL_FAST := true } tests
        { g_testFunctionCount := c, g_errorDetected := false, out := o,
          log := [] }).2.g_errorDetected = false) ∧
    ((RunTests { USE_PRINTF := usePrintf, UC_FAIL_FAST := true } tests
        { g_testFunctionCount := c, g_errorDetected := false, out := o, log := [] }).1 &&
      NO_ERROR_DETECTED (RunTests { USE_PRINTF := usePrintf, UC_FAIL_FAST := true } tests
        { g_testFunctionCount := c, g_errorDetected := false, out := o, log := [] }).2)
      = (RunTests { USE_PRINTF := usePrintf, UC_FAIL_FAST := true } tests
        { g_testFunctionCount := c, g_errorDetected := false, out := o, log := [] }).1 ∧
    (main { USE_PRINTF := usePrintf, UC_FAIL_FAST := true } tests
        { g_testFunctionCount := c, g_errorDetected := false, out := o, log := [] }).2.out
      = (RunTests { USE_PRINTF := usePrintf, UC_FAIL_FAST := true } tests
          { g_testFunctionCount := c, g_errorDetected := false, out := o, log := [] }).2.out ++
        [if (RunTests { USE_PRINTF := usePrintf, UC_FAIL_FAST := true } tests
            { g_testFunctionCount := c, g_errorDetected := false, out := o, log := [] }).1 = true
          then "All test cases successfully passed.\n" else "Error detected.\n",
         "Executed " ++ toString (RunTests { USE_PRINTF := usePrintf, UC_FAIL_FAST := true }
            tests
            { g_testFunctionCount := c, g_errorDetected := false, out := o,
              log := [] }).2.g_testFunctionCount ++ " test functions.\n"] := by
  have key : (RunTests { USE_PRINTF := usePrintf, UC_FAIL_FAST := true } tests
        { g_testFunctionCount := c, g_errorDetected := false, out := o, log := [] }).1 = true →
      (RunTests { USE_PRINTF := usePrintf, UC_FAIL_FAST := true } tests
        { g_testFunctionCount := c, g_errorDetected := false, out := o,
          log := [] }).2.g_errorDetected = false := by
    intro h
    rw [RunTests_fst] at h
    rw [RunTests_flag, runLog_no_failure_of_all _ rfl tests h]
    rfl
  refine ⟨key, ?_, ?_⟩
  · rw [NO_ERROR_DETECTED]
    cases h : (RunTests { USE_PRINTF := usePrintf, UC_FAIL_FAST := true } tests
        { g_testFunctionCount := c, g_errorDetected := false, out := o, log := [] }).1
    · rfl
    · rw [key h]; rfl
  · rw [main_out]
    cases h : (RunTests { USE_PRINTF := usePrintf, UC_FAIL_FAST := true } tests
        { g_testFunctionCount := c, g_errorDetected := false, out := o, log := [] }).1
    · simp
    · simp [key h]

/-- Witness for C18: `TestCase1` registered twice, fail-fast enabled; the runner
returns true and the flag is false at the end. -/
theorem fail_fast_runner_true_means_no_error_witness :
    (RunTests { USE_PRINTF := true, UC_FAIL_FAST := true } [TestCase1, TestCase1]
        { g_testFunctionCount := 0, g_errorDetected := false, out := [], log := [] }).1 = true ∧
    (RunTests { USE_PRINTF := true, UC_FAIL_FAST := true } [TestCase1, TestCase1]
        { g_testFunctionCount := 0, g_errorDetected := false, out := [],
          log := [] }).2.g_errorDetected = false :=
  ⟨by decide,
    (fail_fast_runner_true_means_no_error true [TestCase1, TestCase1] 0 []).1 (by decide)⟩

/-- C19: with fail-fast disabled, two registration lists that differ only in the
conditions of their assertions (same names, same messages, same `return` values),
run from the same state, give the same return value of the runner, the same final
`g_testFunctionCount`, the same functions called and the same values returned by
them. -/
theorem assertion_outcomes_do_not_steer_runner (usePrintf : Bool)
    (tests tests' : List TestFunction) (s : State)
    (h : tests.map TestFunction.eraseConditions = tests'.map TestFunction.eraseConditions) :
    (RunTests { USE_PRINTF := usePrintf, UC_FAIL_FAST := false } tests s).1
      = (RunTests { USE_PRINTF := usePrintf, UC_FAIL_FAST := false } tests' s).1 ∧
    (RunTests { USE_PRINTF := usePrintf, UC_FAIL_FAST := false } tests s).2.g_testFunctionCount
      = (RunTests { USE_PRINTF := usePrintf, UC_FAIL_FAST := false } tests'
          s).2.g_testFunctionCount ∧
    invokedNames (RunTests { USE_PRINTF := usePrintf, UC_FAIL_FAST := false } tests s).2.log
      = invokedNames (RunTests { USE_PRINTF := usePrintf, UC_FAIL_FAST := false } tests'
          s).2.log ∧
    returnedResults (RunTests { USE_PRINTF := usePrintf, UC_FAIL_FAST := false } tests s).2.log
      = returnedResults (RunTests { USE_PRINTF := usePrintf, UC_FAIL_FAST := false } tests'
          s).2.log := by
  have hinv : (invokedFunctions { USE_PRINTF := usePrintf, UC_FAIL_FAST := false } tests).map
        TestFunction.eraseConditions
      = (invokedFunctions { USE_PRINTF := usePrintf, UC_FAIL_FAST := false } tests').map
        TestFunction.eraseConditions := by
    rw [← invokedFunctions_eraseConditions _ rfl, ← invokedFunctions_eraseConditions _ rfl, h]
  have hlen : (invokedFunctions { USE_PRINTF := usePrintf, UC_FAIL_FAST := false } tests).length
      = (invokedFunctions { USE_PRINTF := usePrintf, UC_FAIL_FAST := false } tests').length := by
    have := congrArg List.length hinv
    simpa using this
  have hnames := congrArg (List.map (fun f : TestFunction => f.name)) hinv
  rw [map_name_eraseConditions, map_name_eraseConditions] at hnames
  have hres := congrArg (List.map (fun f : TestFunction =>
    f.returns { USE_PRINTF := usePrintf, UC_FAIL_FAST := false })) hinv
  simp only [List.map_map] at hres
  have hfun : ((fun f : TestFunction =>
        f.returns { USE_PRINTF := usePrintf, UC_FAIL_FAST := false }) ∘
        TestFunction.eraseConditions)
      = (fun f : TestFunction =>
        f.returns { USE_PRINTF := usePrintf, UC_FAIL_FAST := false }) :=
    funext (fun f => returns_eraseConditions _ rfl f)
  rw [hfun] at hres
  refine ⟨?_, ?_, ?_, ?_⟩
  · rw [RunTests_fst, RunTests_fst, ← all_returns_eraseConditions _ rfl tests,
      ← all_returns_eraseConditions _ rfl tests', h]
  · rw [RunTests_count_iterate, RunTests_count_iterate, hlen]
  · rw [RunTests_log, RunTests_log, invokedNames_append, invokedNames_append,
      invokedNames_runLog, invokedNames_runLog, hnames]
  · rw [RunTests_log, RunTests_log, returnedResults_append, returnedResults_append,
      returnedResults_runLog, returnedResults_runLog, hres]

/-- Witness for C19: the demo suite against the same suite with the two conditions
exchanged (`TestCase1` asserting false, `TestCase2` asserting true), fail-fast
disabled, from the initial state. -/
theorem assertion_outcomes_do_not_steer_runner_witness :
    [TestCase1, TestCase2].map TestFunction.eraseConditions
      = [{ name := "TestCase1",
           asserts := [{ message := "TestCase2: Detailed information ...", condition := false }],
           ret := true },
         { name := "TestCase2",
           asserts := [{ message := "TestCase2: Detailed information ...", condition := true }],
           ret := true }].map TestFunction.eraseConditions ∧
    ((RunTests { USE_PRINTF := true, UC_FAIL_FAST := false } [TestCase1, TestCase2]
        initialState).1
      = (RunTests { USE_PRINTF := true, UC_FAIL_FAST := false }
        [{ name := "TestCase1",
           asserts := [{ message := "TestCase2: Detailed information ...", condition := false }],
           ret := true },
         { name := "TestCase2",
           asserts := [{ message := "TestCase2: Detailed information ...", condition := true }],
           ret := true }] initialState).1 ∧
    (RunTests { USE_PRINTF := true, UC_FAIL_FAST := false } [TestCase1, TestCase2]
        initialState).2.g_testFunctionCount
      = (RunTests { USE_PRINTF := true, UC_FAIL_FAST := false }
        [{ name := "TestCase1",
           asserts := [{ message := "TestCase2: Detailed information ...", condition := false }],
           ret := true },
         { name := "TestCase2",
           asserts := [{ message := "TestCase2: Detailed information ...", condition := true }],
           ret := true }] initialState).2.g_testFunctionCount ∧
    invokedNames (RunTests { USE_PRINTF := true, UC_FAIL_FAST := false } [TestCase1, TestCase2]
        initialState).2.log
      = invokedNames (RunTests { USE_PRINTF := true, UC_FAIL_FAST := false }
        [{ name := "TestCase1",
           asserts := [{ message := "TestCase2: Detailed information ...", condition := false }],
           ret := true },
         { name := "TestCase2",
           asserts := [{ message := "TestCase2: Detailed information ...", condition := true }],
           ret := true }] initialState).2.log ∧
    returnedResults (RunTests { USE_PRINTF := true, UC_FAIL_FAST := false }
        [TestCase1, TestCase2] initialState).2.log
      = returnedResults (RunTests { USE_PRINTF := true, UC_FAIL_FAST := false }
        [{ name := "TestCase1",
           asserts := [{ message := "TestCase2: Detailed information ...", condition := false }],
           ret := true },
         { name := "TestCase2",
           asserts := [{ message := "TestCase2: Detailed information ...", condition := true }],
           ret := true }] initialState).2.log) :=
  ⟨by decide,
    assertion_outcomes_do_not_steer_runner true [TestCase1, TestCase2]
      [{ name := "TestCase1",
         asserts := [{ message := "TestCase2: Detailed information ...", condition := false }],
         ret := true },
       { name := "TestCase2",
         asserts := [{ message := "TestCase2: Detailed information ...", condition := true }],
         ret := true }] initialState (by decide)⟩

end UCTest
